import Mathlib

/-!
Shallow embedding of `src/dijkstra.py` (class `LocationToLocationOptimizer`):
the network builder, the multi-criteria Dijkstra search, path reconstruction
and the route aggregator `find_optimized_routes`, together with proofs about
them.

Modelling conventions:
* Python floats are modelled as exact rationals (`ℚ`).  The concrete
  distance values fed to the builder are the exact rational values of the
  IEEE-754 doubles the reference haversine computation produces (the
  haversine formula itself is transcendental, so the builder is
  parameterized by the metric; `distq` tabulates its exact values on the
  43 catalog coordinates).
* The seven parallel per-location dictionaries of `_dijkstra`
  (`distances`, `costs`, `times`, `distances_km`, `transfers`, `previous`,
  `edge_info`) share one key set, so they are modelled as one association
  list of seven-field `NodeLabel` records; `float('inf')` entries are
  modelled as `none`.
* The `heapq` priority queue is modelled as a plain list from which the
  minimum under the Python tuple order (score, then name) is extracted;
  `while pq` is driven by a fuel argument that dominates the number of
  pushes (one initial entry plus at most one push per successful
  relaxation, and each directed edge is relaxed at most once).
* Python `round` is modelled as decimal round-half-to-even (`pyround`).
-/

namespace Kochi

/-- One entry of the `self.locations` catalog: name, coordinates, the
`'type'` tag and the `'zone'` tag. -/
structure Loc where
  name : String
  lat : ℚ
  lon : ℚ
  ty : String
  zone : String
deriving DecidableEq, Repr

/-- One adjacency-list entry, as appended by `_add_edge`. -/
structure Edge where
  destination : String
  mode : String
  time : ℚ
  distance : ℚ
  cost : ℚ
deriving DecidableEq, Repr

/-- The per-location search labels of `_dijkstra` (one record holding the
entries of the seven parallel dictionaries; `none` models `float('inf')`
for the numeric fields and `None` for `previous` / `edge_info`). -/
structure NodeLabel where
  dist : Option ℚ
  cost : Option ℚ
  time : Option ℚ
  dkm : Option ℚ
  transfers : ℕ
  prev : Option String
  einfo : Option Edge
deriving DecidableEq, Repr

/-- Lookup in a string-keyed association list (a Python dict). -/
def getv {α : Type} (m : List (String × α)) (k : String) : Option α :=
  (m.find? (fun p => p.1 == k)).map (·.2)

/-- Pointwise update of a string-keyed association list (dict assignment;
a no-op when the key is absent, which never happens on the complete maps
the search builds). -/
def setv {α : Type} (m : List (String × α)) (k : String) (v : α) : List (String × α) :=
  m.map (fun p => if p.1 == k then (p.1, v) else p)

/-- The search state: one complete `NodeLabel` map over the catalog. -/
abbrev DState := List (String × NodeLabel)

/-- The adjacency structure `self.graph`: a dict from location name to its
outgoing edge list. -/
abbrev Graph := List (String × List Edge)

/-- Outgoing edges of a location (empty when the key is absent, matching
the `if current not in self.graph: continue` guard). -/
def adj (g : Graph) (a : String) : List Edge :=
  ((g.find? (fun p => p.1 == a)).map (·.2)).getD []

/-- The `_add_edge` helper: append to the (defaultdict) adjacency list. -/
def addEdge (g : Graph) (frm : String) (e : Edge) : Graph :=
  if (g.find? (fun p => p.1 == frm)).isSome then
    g.map (fun p => if p.1 == frm then (p.1, p.2 ++ [e]) else p)
  else g ++ [(frm, [e])]

/-- Python decimal `round` to an integer, half to even. -/
def roundHalfEven (q : ℚ) : ℤ :=
  let f := ⌊q⌋
  if q - f < 1/2 then f
  else if 1/2 < q - f then f + 1
  else if f % 2 = 0 then f else f + 1

/-- Python `round(q, n)` on decimals. -/
def pyround (q : ℚ) (n : ℕ) : ℚ :=
  (roundHalfEven (q * 10 ^ n) : ℚ) / 10 ^ n

/-- The Python tuple order on heap entries `(composite, name)`:
`heapq` pops the least entry under this order. -/
def pqLe (a b : ℚ × String) : Bool :=
  decide (a.1 < b.1) || (a.1 == b.1 && decide (a.2 ≤ b.2))

/-- Extract the minimal entry of the queue (and the remaining entries);
models `heapq.heappop`. -/
def popMin : List (ℚ × String) → Option ((ℚ × String) × List (ℚ × String))
  | [] => none
  | x :: xs =>
    match popMin xs with
    | none => some (x, [])
    | some (m, rest) => if pqLe x m then some (x, xs) else some (m, x :: rest)

/-- The mode-change flag of one relaxation (source lines 330-334): the
previous mode is the mode of the edge stored for the current node, and a
change is flagged when it exists and differs from the relaxed edge's
mode. -/
def codeModeChange (lc : NodeLabel) (edge : Edge) : Bool :=
  match lc.einfo.map (·.mode) with
  | some m => m != edge.mode
  | none => false

/-- The updated transfer count of one relaxation (source lines 327-334):
incremented exactly when the mode changes. -/
def codeTransfers (lc : NodeLabel) (edge : Edge) : ℕ :=
  if codeModeChange lc edge then lc.transfers + 1 else lc.transfers

/-- The composite score of one relaxation (source lines 336-356):
`cost_weight * norm_cost + time_weight * norm_time + convenience_weight *
(norm_transfers + mode_change_penalty + walk_penalty)`, with each
normalization zero when the accumulated value is not positive, a 0.3
mode-change penalty, and a `distance * 0.2` penalty on walk edges longer
than 0.5 km. -/
def codeComposite (cw tw vw : ℚ) (lc : NodeLabel) (edge : Edge) (c t : ℚ) : ℚ :=
  cw * (if 0 < c + edge.cost then (c + edge.cost) / 200 else 0) +
    tw * (if 0 < t + edge.time then (t + edge.time) / 120 else 0) +
    vw * ((if 0 < codeTransfers lc edge then (codeTransfers lc edge : ℚ) / 5 else 0) +
      (if codeModeChange lc edge then 3/10 else 0) +
      (if edge.mode == "walk" && decide ((1:ℚ)/2 < edge.distance) then
        edge.distance * (2/10)
      else 0))

/-- The body of the relaxation loop `for edge in self.graph[current]` of
`_dijkstra`, lines 318-366 of the source: compute the composite score of
`neighbor` through `edge` and update its labels when the composite is
strictly smaller than its recorded best score.  The `(none, _)` and
`(_, none)` label fallthroughs are unreachable on the complete maps the
search uses (every catalog key is present), and a current node with an
infinite accumulated cost never improves a neighbor (the composite would
be infinite, or NaN for a zero weight, and the strict comparison fails
either way), so those cases leave the state unchanged. -/
def relax (cw tw vw : ℚ) (current : String) (visited : List String)
    (acc : DState × List (ℚ × String)) (edge : Edge) : DState × List (ℚ × String) :=
  let st := acc.1
  let pq := acc.2
  let neighbor := edge.destination
  if neighbor ∈ visited then (st, pq)
  else
    match getv st current, getv st neighbor with
    | some lc, some ln =>
      match lc.cost, lc.time, lc.dkm with
      | some c, some t, some d =>
        let composite := codeComposite cw tw vw lc edge c t
        let better : Bool :=
          match ln.dist with
          | none => true
          | some r => decide (composite < r)
        if better then
          (setv st neighbor
            ⟨some composite, some (c + edge.cost), some (t + edge.time),
              some (d + edge.distance), codeTransfers lc edge, some current, some edge⟩,
            (composite, neighbor) :: pq)
        else (st, pq)
      | _, _, _ => (st, pq)
    | _, _ => (st, pq)

/-- The `while pq` loop of `_dijkstra`, driven by fuel (which the caller
chooses large enough to dominate every possible number of queue pops). -/
def dijkstraLoop (G : Graph) (cw tw vw : ℚ) (stop : String) :
    ℕ → List (ℚ × String) → List String → DState → DState
  | 0, _, _, st => st
  | Nat.succ fuel, pq, visited, st =>
    match popMin pq with
    | none => st
    | some (entry, pq') =>
      let current := entry.2
      if current ∈ visited then dijkstraLoop G cw tw vw stop fuel pq' visited st
      else
        let visited' := current :: visited
        if current = stop then st
        else
          let acc := (adj G current).foldl (relax cw tw vw current visited') (st, pq')
          dijkstraLoop G cw tw vw stop fuel acc.2 visited' acc.1

/-- The initial label map of `_dijkstra`: every catalog key starts at
infinity except `start`, which starts at zero. -/
def initState (locs : List Loc) (start : String) : DState :=
  locs.map (fun ℓ =>
    (ℓ.name,
      if ℓ.name == start then ⟨some 0, some 0, some 0, some 0, 0, none, none⟩
      else ⟨none, none, none, none, 0, none, none⟩))

/-- `_dijkstra(start, end, cost_weight, time_weight, convenience_weight)`. -/
def dijkstra (locs : List Loc) (G : Graph) (start stop : String)
    (cw tw vw : ℚ) : DState :=
  dijkstraLoop G cw tw vw stop
    (2 + (G.map (fun p => p.2.length)).sum + locs.length)
    [(0, start)] [] (initState locs start)

/-- One step of a reconstructed path (a dict of `_reconstruct_path`). -/
structure Step where
  location : String
  ty : String
  mode : String
  segment_time : ℚ
  segment_cost : ℚ
  segment_distance : ℚ
deriving DecidableEq, Repr

/-- The `'type'` tag of a catalog entry (used by `_reconstruct_path`). -/
def typeOf (locs : List Loc) (n : String) : String :=
  ((locs.find? (fun ℓ => ℓ.name == n)).map (·.ty)).getD ""

/-- The starting step of a reconstructed path (`i == 0` branch). -/
def startStep (locs : List Loc) (n : String) : Step :=
  ⟨n, typeOf locs n, "start", 0, 0, 0⟩

/-- A non-initial step of a reconstructed path, read from `edge_info`. -/
def laterStep (locs : List Loc) (st : DState) (n : String) : Step :=
  match (getv st n).bind (·.einfo) with
  | some e => ⟨n, typeOf locs n, e.mode, pyround e.time 1, pyround e.cost 2, pyround e.distance 2⟩
  | none => ⟨n, typeOf locs n, "unknown", 0, 0, 0⟩

/-- The backwards `while current is not None` walk of `_reconstruct_path`
(before the final `reverse`), fuel-driven; the fuel the caller passes
exceeds the number of catalog entries, which bounds every predecessor
chain the search can build. -/
def buildBack (st : DState) : ℕ → Option String → List String
  | _, none => []
  | 0, some _ => []
  | Nat.succ f, some cur => cur :: buildBack st f ((getv st cur).bind (·.prev))

/-- `_reconstruct_path(start, end, result)`. -/
def reconstructPath (locs : List Loc) (st : DState) (start stop : String) : List Step :=
  match (buildBack st (st.length + 1) (some stop)).reverse with
  | [] => []
  | first :: rest =>
    if first = start then startStep locs first :: rest.map (laterStep locs st)
    else []

/-- One route alternative of `find_optimized_routes`. -/
structure Route where
  strategy : String
  total_cost : ℚ
  total_time : ℚ
  total_distance : ℚ
  num_segments : ℕ
  path : List Step
deriving DecidableEq, Repr

/-- The structured errors `find_optimized_routes` surfaces (the
`{"error": ...}` dictionaries of the source, keyed by their contents). -/
inductive QueryError where
  | unknownStart (name : String)
  | unknownEnd (name : String)
  | identicalEndpoints
  | noRouteFound (start stop : String)
deriving DecidableEq, Repr

/-- The result of one query: a structured error or a route list. -/
inductive QueryResult where
  | err (e : QueryError)
  | routes (rs : List Route)
deriving DecidableEq, Repr

/-- The four fixed strategies (name, cost weight, time weight,
convenience weight). -/
def stratList : List (String × ℚ × ℚ × ℚ) :=
  [("Cheapest", 4/5, 1/10, 1/10),
   ("Fastest", 1/10, 4/5, 1/10),
   ("Balanced", 2/5, 2/5, 1/5),
   ("Most Convenient", 1/5, 3/10, 1/2)]

/-- Membership test in the catalog (`name in self.locations`). -/
def hasLoc (locs : List Loc) (n : String) : Bool :=
  (locs.find? (fun ℓ => ℓ.name == n)).isSome

/-- The body of the per-strategy loop of `find_optimized_routes`: run the
search, and when the destination has a predecessor and reconstruction
succeeds, package the `Route` record with its rounded totals. -/
def runStrategy (locs : List Loc) (G : Graph) (start stop : String)
    (s : String × ℚ × ℚ × ℚ) : Option Route :=
  let st := dijkstra locs G start stop s.2.1 s.2.2.1 s.2.2.2
  if ((getv st stop).bind (·.prev)).isSome then
    let path := reconstructPath locs st start stop
    if path.isEmpty then none
    else
      some
        { strategy := s.1
          total_cost := pyround (((getv st stop).bind (·.cost)).getD 0) 2
          total_time := pyround (((getv st stop).bind (·.time)).getD 0) 1
          total_distance := pyround (((getv st stop).bind (·.dkm)).getD 0) 2
          num_segments := path.length - 1
          path := path }
  else none

/-- The `all_routes` accumulator: one optional route per strategy, in the
fixed strategy order. -/
def allRoutes (locs : List Loc) (G : Graph) (start stop : String) : List Route :=
  stratList.filterMap (runStrategy locs G start stop)

/-- The deduplication key: the ordered sequence of visited location
names. -/
def routeKey (r : Route) : List String :=
  r.path.map (·.location)

/-- The duplicate-removal loop of `find_optimized_routes` (`seen_paths`
accumulates the keys already kept; only the first route with a given key
survives). -/
def dedupRoutes : List Route → List (List String) → List Route
  | [], _ => []
  | r :: rs, seen =>
    if routeKey r ∈ seen then dedupRoutes rs seen
    else r :: dedupRoutes rs (routeKey r :: seen)

/-- The fixed secondary ranking key `total_cost * 0.6 + total_time * 0.4`. -/
def rankKey (r : Route) : ℚ :=
  r.total_cost * (6/10) + r.total_time * (4/10)

/-- The boolean comparison the final sort uses. -/
def routeLe (a b : Route) : Bool := decide (rankKey a ≤ rankKey b)

/-- The final ranking of surviving routes (Python `list.sort` is a stable
sort by the ranking key). -/
def sortRoutes (rs : List Route) : List Route :=
  rs.mergeSort routeLe

/-- `find_optimized_routes(start_location, end_location)`. -/
def findOptimizedRoutes (locs : List Loc) (G : Graph) (start stop : String) : QueryResult :=
  if !hasLoc locs start then .err (.unknownStart start)
  else if !hasLoc locs stop then .err (.unknownEnd stop)
  else if start = stop then .err .identicalEndpoints
  else
    let unique := dedupRoutes (allRoutes locs G start stop) []
    let sorted := sortRoutes unique
    if sorted.isEmpty then .err (.noRouteFound start stop)
    else .routes sorted

/-- The fixed metro line (`metro_data`): name, latitude, longitude, zone. -/
def metroData : List (String × ℚ × ℚ × String) :=
  [("Aluva Metro", 10.1082, 76.3520, "Zone 3"),
   ("Pulinchodu Metro", 10.1012, 76.3445, "Zone 3"),
   ("Companypady Metro", 10.0942, 76.3370, "Zone 3"),
   ("Ambattukavu Metro", 10.0872, 76.3295, "Zone 2"),
   ("Muttom Metro", 10.0802, 76.3220, "Zone 2"),
   ("Kalamassery Metro", 10.0732, 76.3145, "Zone 2"),
   ("Cusat Metro", 10.0662, 76.3070, "Zone 2"),
   ("Pathadipalam Metro", 10.0592, 76.2995, "Zone 2"),
   ("Edapally Metro", 10.0522, 76.2920, "Zone 2"),
   ("Changampuzha Park Metro", 10.0452, 76.2845, "Zone 2"),
   ("Palarivattom Metro", 10.0382, 76.2770, "Zone 2"),
   ("J.L.N Stadium Metro", 10.0312, 76.2695, "Zone 2"),
   ("Kaloor Metro", 10.0242, 76.2620, "Zone 2"),
   ("Lissie Metro", 10.0172, 76.2545, "Zone 1"),
   ("M.G Road Metro", 10.0102, 76.2470, "Zone 1"),
   ("Maharajas Metro", 10.0032, 76.2395, "Zone 1"),
   ("Ernakulam South Metro", 9.9962, 76.2320, "Zone 1"),
   ("Kadavanthra Metro", 9.9892, 76.2245, "Zone 2"),
   ("Elamkulam Metro", 9.9822, 76.2170, "Zone 2"),
   ("Vyttila Metro", 9.9752, 76.2095, "Zone 2"),
   ("Thaikoodam Metro", 9.9682, 76.2020, "Zone 3"),
   ("Petta Metro", 9.9612, 76.1945, "Zone 3"),
   ("Thripunithura Metro", 9.9542, 76.1870, "Zone 3")]

/-- The fixed catalog of popular places (`popular_places`): name,
latitude, longitude, type tag. -/
def popularPlaces : List (String × ℚ × ℚ × String) :=
  [("Aluva Town", 10.1100, 76.3550, "residential"),
   ("Kalamassery Town", 10.0750, 76.3200, "residential"),
   ("Edapally Market", 10.0540, 76.2950, "commercial"),
   ("Kakkanad Infopark", 10.0150, 76.3450, "commercial"),
   ("Palarivattom Junction", 10.0400, 76.2800, "junction"),
   ("M.G Road Market", 10.0120, 76.2500, "commercial"),
   ("Marine Drive", 9.9750, 76.2800, "tourist"),
   ("Ernakulam South Bus Stand", 9.9980, 76.2350, "transport_hub"),
   ("Fort Kochi", 9.9650, 76.2420, "tourist"),
   ("Vyttila Hub", 9.9770, 76.3100, "transport_hub"),
   ("Kakkanad Seaport Airport Road", 10.0050, 76.3350, "commercial"),
   ("Thripunithura Town", 9.9560, 76.1900, "residential"),
   ("Medical Trust Hospital Edapally", 10.0510, 76.2880, "hospital"),
   ("Lakeshore Hospital Kochi", 9.9800, 76.2950, "hospital"),
   ("Amrita Hospital Kochi", 10.0430, 76.3100, "hospital"),
   ("CUSAT Campus", 10.0650, 76.3050, "educational"),
   ("Rajagiri College Kakkanad", 10.0200, 76.3400, "educational"),
   ("Lulu Mall Edapally", 10.0450, 76.3000, "mall"),
   ("Oberon Mall", 10.0340, 76.2780, "mall"),
   ("Centre Square Mall", 9.9880, 76.2880, "mall")]

/-- The full location catalog, in dict insertion order (metro stations
first, then popular places; popular places carry zone `"N/A"`). -/
def locations : List Loc :=
  metroData.map (fun s => ⟨s.1, s.2.1, s.2.2.1, "metro_station", s.2.2.2⟩) ++
    popularPlaces.map (fun s => ⟨s.1, s.2.1, s.2.2.1, s.2.2.2, "N/A"⟩)

/-- A distance metric on coordinates, the shape of `_haversine_distance`.
The haversine formula computes with transcendental functions, so the
builder is parameterized by the metric; `distq` below carries its exact
IEEE-754 values on the catalog coordinates. -/
abbrev Dist := ℚ → ℚ → ℚ → ℚ → ℚ

/-- The `_build_metro_network` edge insertions: one bidirectional `metro`
edge per consecutive station pair, fixed time 2.5 and cost 5, distance
from the metric (computed once, used for both directions). -/
def metroAdds (D : Dist) : List (String × Edge) :=
  (metroData.zip metroData.tail).flatMap (fun s =>
    let d := D s.1.2.1 s.1.2.2.1 s.2.2.1 s.2.2.2.1
    [(s.1.1, ⟨s.2.1, "metro", 5/2, d, 5⟩),
     (s.2.1, ⟨s.1.1, "metro", 5/2, d, 5⟩)])

/-- The `_find_nearest_metro_stations` helper: all stations with their
distance to the given coordinates, stably sorted ascending by distance,
first `k` kept. -/
def nearestMetroStations (D : Dist) (lat lon : ℚ) (k : ℕ) : List (String × ℚ) :=
  ((metroData.map (fun s => (s.1, D lat lon s.2.1 s.2.2.1))).mergeSort
    (fun a b => decide (a.2 ≤ b.2))).take k

/-- The `_connect_locations_to_metro` edge insertions: for each non-metro
location and each of its 3 nearest stations, walk / auto / bus connectors
under the distance thresholds, both directions each. -/
def connectorAdds (D : Dist) : List (String × Edge) :=
  locations.flatMap (fun ℓ =>
    if ℓ.ty == "metro_station" then []
    else
      (nearestMetroStations D ℓ.lat ℓ.lon 3).flatMap (fun sd =>
        let station := sd.1
        let dk := sd.2
        (if dk < 3/2 then
          [(ℓ.name, ⟨station, "walk", dk * 15, dk, dk * 5⟩),
           (station, ⟨ℓ.name, "walk", dk * 15, dk, dk * 5⟩)]
         else []) ++
        (if dk < 15 then
          [(ℓ.name, ⟨station, "auto", dk * 3, dk, 20 + dk * 12⟩),
           (station, ⟨ℓ.name, "auto", dk * 3, dk, 20 + dk * 12⟩)]
         else []) ++
        (if 1 < dk ∧ dk < 10 then
          [(ℓ.name, ⟨station, "bus", dk * 4, dk, 10 + dk * 3⟩),
           (station, ⟨ℓ.name, "bus", dk * 4, dk, 10 + dk * 3⟩)]
         else [])))

/-- The non-metro locations, in catalog order (`locations_list` of
`_add_direct_connections`). -/
def nonMetroLocs : List Loc :=
  locations.filter (fun ℓ => ℓ.ty != "metro_station")

/-- All ordered pairs `(l1, l2)` with `l1` before `l2` in the list (the
`for i ... for loc2 in locations_list[i+1:]` double loop). -/
def pairsAfter : List Loc → List (Loc × Loc)
  | [] => []
  | x :: xs => xs.map (fun y => (x, y)) ++ pairsAfter xs

/-- The `_add_direct_connections` edge insertions: direct auto (< 10 km)
and walk (< 1.5 km) edges between nearby non-metro locations, both
directions each, auto block first. -/
def directAdds (D : Dist) : List (String × Edge) :=
  (pairsAfter nonMetroLocs).flatMap (fun p =>
    let d := D p.1.lat p.1.lon p.2.lat p.2.lon
    (if d < 10 then
      [(p.1.name, ⟨p.2.name, "auto", d * 3, d, 20 + d * 12⟩),
       (p.2.name, ⟨p.1.name, "auto", d * 3, d, 20 + d * 12⟩)]
     else []) ++
    (if d < 3/2 then
      [(p.1.name, ⟨p.2.name, "walk", d * 15, d, d * 5⟩),
       (p.2.name, ⟨p.1.name, "walk", d * 15, d, d * 5⟩)]
     else []))

/-- All `_add_edge` calls of the constructor, in chronological order. -/
def graphAdds (D : Dist) : List (String × Edge) :=
  metroAdds D ++ connectorAdds D ++ directAdds D

/-- The constructed adjacency structure (the constructor's `self.graph`). -/
def buildGraph (D : Dist) : Graph :=
  (graphAdds D).foldl (fun g fe => addEdge g fe.1 fe.2) []

/-- One strategy reaches the destination: the search leaves the
destination with a predecessor and path reconstruction succeeds (the two
guards the per-strategy loop of `find_optimized_routes` checks). -/
def strategySucceeds (locs : List Loc) (G : Graph) (s e : String)
    (w : String × ℚ × ℚ × ℚ) : Prop :=
  ((getv (dijkstra locs G s e w.2.1 w.2.2.1 w.2.2.2) e).bind (·.prev)).isSome = true ∧
    reconstructPath locs (dijkstra locs G s e w.2.1 w.2.2.1 w.2.2.2) s e ≠ []

/-- Two locations joined by one auto edge each way. -/
def tinyLocs : List Loc :=
  [⟨"A", 0, 0, "residential", "N/A"⟩, ⟨"B", 1, 1, "residential", "N/A"⟩]

/-- The adjacency structure of the two-location network. -/
def tinyGraph : Graph :=
  [("A", [⟨"B", "auto", 3, 1, 32⟩]), ("B", [⟨"A", "auto", 3, 1, 32⟩])]

/-- The mode-change test as the specification words it: the relaxed
edge's mode differs from the mode of the edge last used to reach the
current node (no difference when no edge reached it yet). -/
def specModeDiff (lc : NodeLabel) (edge : Edge) : Bool :=
  match lc.einfo with
  | some eprev => eprev.mode != edge.mode
  | none => false

/-- The updated transfer count as the specification words it:
incremented exactly when the mode changes. -/
def specTransfers (lc : NodeLabel) (edge : Edge) : ℕ :=
  if specModeDiff lc edge then lc.transfers + 1 else lc.transfers

/-- The composite score exactly as the specification's formula writes it
(each normalized term is zero when the accumulated quantity is zero). -/
def specComposite (cw tw vw : ℚ) (lc : NodeLabel) (edge : Edge) (c t : ℚ) : ℚ :=
  cw * (if c + edge.cost = 0 then 0 else (c + edge.cost) / 200) +
    tw * (if t + edge.time = 0 then 0 else (t + edge.time) / 120) +
    vw * ((if specTransfers lc edge = 0 then 0 else (specTransfers lc edge : ℚ) / 5) +
      (if specModeDiff lc edge then 3/10 else 0) +
      (if edge.mode = "walk" ∧ 1/2 < edge.distance then edge.distance * (2/10) else 0))

/-- Nonnegative attributes of one edge. -/
def EdgeOk (e : Edge) : Prop := 0 ≤ e.cost ∧ 0 ≤ e.time ∧ 0 ≤ e.distance

instance : DecidablePred EdgeOk := fun e => by unfold EdgeOk; infer_instance

/-- Every edge of the graph has nonnegative attributes (true of the
builder's output: all times, distances and costs are products and sums of
nonnegative quantities). -/
def GraphOk (G : Graph) : Prop := ∀ a e, e ∈ adj G a → EdgeOk e

/-- The label of the current node read by one relaxation. -/
def labelCost (st : DState) (n : String) : Option ℚ := (getv st n).bind (·.cost)

/-- The accumulated time label. -/
def labelTime (st : DState) (n : String) : Option ℚ := (getv st n).bind (·.time)

/-- The accumulated distance label. -/
def labelDkm (st : DState) (n : String) : Option ℚ := (getv st n).bind (·.dkm)

/-- The arriving edge label. -/
def labelEdge (st : DState) (n : String) : Option Edge := (getv st n).bind (·.einfo)

/-- The predecessor label. -/
def labelPrev (st : DState) (n : String) : Option String := (getv st n).bind (·.prev)

/-- The consistency invariant the relaxation loop maintains: the start
keeps its zero labels and no predecessor; every recorded numeric label is
nonnegative; and every node with a predecessor `p` carries an arriving
edge of `p`'s adjacency list whose attributes extend `p`'s current
labels, where `p` is already visited (so `p`'s labels are frozen). -/
structure Inv (G : Graph) (start : String) (visited : List String) (st : DState) : Prop where
  start_label : ∃ l0, getv st start = some l0 ∧ l0.dist = some 0 ∧ l0.cost = some 0 ∧
    l0.time = some 0 ∧ l0.dkm = some 0 ∧ l0.prev = none
  nonneg : ∀ n l, getv st n = some l →
    (∀ q, l.dist = some q → 0 ≤ q) ∧ (∀ q, l.cost = some q → 0 ≤ q) ∧
    (∀ q, l.time = some q → 0 ≤ q) ∧ (∀ q, l.dkm = some q → 0 ≤ q)
  pred : ∀ n l p, getv st n = some l → l.prev = some p →
    p ∈ visited ∧
    ∃ e lp cp tp dp, l.einfo = some e ∧ e ∈ adj G p ∧
      getv st p = some lp ∧ lp.cost = some cp ∧ lp.time = some tp ∧ lp.dkm = some dp ∧
      l.cost = some (cp + e.cost) ∧ l.time = some (tp + e.time) ∧
      l.dkm = some (dp + e.distance)

/-- The cost of the arriving edge stored for a node (0 when absent). -/
def eCost (st : DState) (n : String) : ℚ := ((labelEdge st n).map (·.cost)).getD 0

/-- The time of the arriving edge stored for a node (0 when absent). -/
def eTime (st : DState) (n : String) : ℚ := ((labelEdge st n).map (·.time)).getD 0

/-- The distance of the arriving edge stored for a node (0 when absent). -/
def eDist (st : DState) (n : String) : ℚ := ((labelEdge st n).map (·.distance)).getD 0

/-- The single route the two-location auxiliary network yields. -/
def tinyRoute : Route :=
  { strategy := "Cheapest", total_cost := 32, total_time := 3, total_distance := 1,
    num_segments := 1,
    path := [⟨"A", "residential", "start", 0, 0, 0⟩,
             ⟨"B", "residential", "auto", 3, 32, 1⟩] }

/-- A concrete relaxation instance: start label for `A`, untouched `B`. -/
def wState : DState :=
  [("A", ⟨some 0, some 0, some 0, some 0, 0, none, none⟩),
   ("B", ⟨none, none, none, none, 0, none, none⟩)]

/-- The edge relaxed in the concrete relaxation instance. -/
def wEdge : Edge := ⟨"B", "auto", 3, 1, 32⟩
/-! ### The tabulated distance metric

Every distance the builder requests lies between two of the 43 fixed
catalog coordinate pairs, so the IEEE-754 haversine metric of the
reference implementation is tabulated exactly: entry `(i, j)` is the
exact rational value of the double it computes for catalog coordinates
`i` and `j`. -/

/-- Row 0 of the tabulated haversine distances (exact IEEE-754 values). -/
def distRow0 : List ℚ :=
  [0, 1273778130960659/1125899906842624, 5095141725267809/2251799813685248, 7642756369591867/2251799813685248, 318450005451117/70368744177664, 6369036559676853/1125899906842624, 7642887591945243/1125899906842624, 8916753173800957/1125899906842624, 5095316647508721/562949953421312, 179133249146457/17592186044416, 6369218557321377/562949953421312, 7006180396302869/562949953421312, 7643149484518677/562949953421312, 8280125816859157/562949953421312, 8917109388212427/562949953421312, 298565631045891/17592186044416, 2547774556879475/140737488355328, 2707025871312333/140737488355328, 1433139495194289/70368744177664, 6051067825661055/281474976710656, 199049414835071/8796093022208, 3344049162702837/140737488355328, 218956842973671/8796093022208, 3464095042863033/9007199254740992, 358126186384965/70368744177664, 4883820249539937/562949953421312, 5849988317240569/562949953421312, 769709148211823/70368744177664, 8705504463958389/562949953421312, 2361365572573319/140737488355328, 4989736463716499/281474976710656, 5619707293186615/281474976710656, 4305552834793639/281474976710656, 6544452742744909/562949953421312, 3450392080641977/140737488355328, 5327154676893533/562949953421312, 4380171566577961/281474976710656, 1208248157535327/140737488355328, 3962694962722711/562949953421312, 5570390156709887/562949953421312, 5091372684512827/562949953421312, 6509560499759351/562949953421312, 8495558045070445/562949953421312]

/-- Row 1 of the tabulated haversine distances (exact IEEE-754 values). -/
def distRow1 : List ℚ :=
  [1273778130960659/1125899906842624, 0, 5095170928150371/4503599627370496, 2547600054927817/1125899906842624, 7642843916882591/2251799813685248, 5095258432354663/1125899906842624, 796138683304973/140737488355328, 7642975050474073/1125899906842624, 1114606896778811/140737488355328, 5095374913743531/562949953421312, 2866164750004421/281474976710656, 6369291340800817/562949953421312, 109472819234481/8796093022208, 7643236765516849/562949953421312, 8280220339218877/562949953421312, 8917211147002651/562949953421312, 4777104591879205/281474976710656, 5095607222187319/281474976710656, 2707056730935649/140737488355328, 1433155827093913/70368744177664, 3025568379573083/140737488355328, 6369653811627585/281474976710656, 3344087231632997/140737488355328, 212447867903273/140737488355328, 8917049233024471/2251799813685248, 2123481055147813/281474976710656, 2697982407072625/281474976710656, 690100336957837/70368744177664, 8068624006198997/562949953421312, 2210946477652505/140737488355328, 4671295083767409/281474976710656, 5305808221351515/281474976710656, 2015038621874153/140737488355328, 6050249651762209/562949953421312, 822792634440771/35184372088832, 586304549922443/70368744177664, 8177312185682841/562949953421312, 527284018767647/70368744177664, 6651657152500855/1125899906842624, 5090452472907719/562949953421312, 4460729093465749/562949953421312, 5873120711807031/562949953421312, 7895531583667343/562949953421312]

/-- Row 2 of the tabulated haversine distances (exact IEEE-754 values). -/
def distRow2 : List ℚ :=
  [5095141725267809/2251799813685248, 5095170928150371/4503599627370496, 0, 5095229293016285/4503599627370496, 5095258454989485/2251799813685248, 1910732851249075/562949953421312, 5095316738035655/1125899906842624, 6369182323884177/1125899906842624, 7643062449816169/1125899906842624, 8916957105609169/1125899906842624, 2547716570259141/281474976710656, 716549372867321/70368744177664, 6369364074952523/562949953421312, 437896275715625/35184372088832, 1910830996829655/140737488355328, 8280314797447913/562949953421312, 4458656418363935/281474976710656, 4777159050023363/281474976710656, 5095665291147747/281474976710656, 1353543784795369/70368744177664, 2866344295785103/140737488355328, 1512801411439639/70368744177664, 3184863149596247/140737488355328, 5944671937311757/2251799813685248, 6377686352483055/2251799813685248, 902526962740277/140737488355328, 4982157096156091/562949953421312, 4883929946817773/562949953421312, 3715868925028633/281474976710656, 4123700179947023/281474976710656, 8705701136499687/562949953421312, 2496241650337721/140737488355328, 940348867899271/70368744177664, 5585028966883629/562949953421312, 3131947260885367/140737488355328, 4053763867770195/562949953421312, 950366376568667/70368744177664, 451405417858535/70368744177664, 5377930775373887/1125899906842624, 4648389761577293/562949953421312, 119754636916681/17592186044416, 2618391914651409/281474976710656, 7301753638855063/562949953421312]

/-- Row 3 of the tabulated haversine distances (exact IEEE-754 values). -/
def distRow3 : List ℚ :=
  [7642756369591867/2251799813685248, 2547600054927817/1125899906842624, 5095229293016285/4503599627370496, 0, 5095287618416073/4503599627370496, 5095316760667235/2251799813685248, 7643018833919325/2251799813685248, 2547687502129285/562949953421312, 6369255132002293/1125899906842624, 1910787447491969/281474976710656, 4458529483964101/562949953421312, 5095491327830777/562949953421312, 5732460421470797/562949953421312, 3184718379886883/281474976710656, 3503210168813529/281474976710656, 7643411149919951/562949953421312, 8280409191542183/562949953421312, 1114676807172719/70368744177664, 4777213471164707/281474976710656, 5095723320636849/281474976710656, 5414236774552837/281474976710656, 1433188457589291/70368744177664, 756409310686959/35184372088832, 8491456311901965/2251799813685248, 1924595100101253/1125899906842624, 5946529323739401/1125899906842624, 4619388519147311/562949953421312, 8494114426133435/1125899906842624, 6794846451747565/562949953421312, 957192967753215/70368744177664, 2017201520943383/140737488355328, 4679848600749411/281474976710656, 3501072990285611/281474976710656, 322290221628279/35184372088832, 5945444532142323/281474976710656, 6834333480330373/1125899906842624, 439957454796059/35184372088832, 6033115714480117/1125899906842624, 513028794508895/140737488355328, 8512047301017399/1125899906842624, 6413696357696383/1125899906842624, 4600595590028937/562949953421312, 3357941930268661/281474976710656]

/-- Row 4 of the tabulated haversine distances (exact IEEE-754 values). -/
def distRow4 : List ℚ :=
  [318450005451117/70368744177664, 7642843916882591/2251799813685248, 5095258454989485/2251799813685248, 5095287618416073/4503599627370496, 0, 5095345904369783/4503599627370496, 5095375026887367/2251799813685248, 7463970902011/2199023255552, 5095433231021741/1125899906842624, 3184663945398279/562949953421312, 3821618535463235/562949953421312, 2229290190297315/281474976710656, 1273887368919761/140737488355328, 5732525815605835/562949953421312, 6369509395262125/562949953421312, 7006500209536947/562949953421312, 477718640832487/35184372088832, 8280503521498401/562949953421312, 8917516008963289/562949953421312, 4777267855301367/281474976710656, 5095781310653777/281474976710656, 5414298367983249/281474976710656, 716602378091937/35184372088832, 5519327220384267/1125899906842624, 5568998569712125/9007199254740992, 4672895134398791/1125899906842624, 4320537807151573/562949953421312, 7220376738622539/1125899906842624, 6157950454119763/562949953421312, 7075851008437377/562949953421312, 3715952671282537/281474976710656, 8736106253503941/562949953421312, 6502239033871737/562949953421312, 4775020517802289/562949953421312, 2813495572730299/140737488355328, 5561403648632777/1125899906842624, 3244642897221467/281474976710656, 2443251169597471/562949953421312, 2830610647705637/1125899906842624, 3928277484286585/562949953421312, 5174427122767831/1125899906842624, 7929262144479463/1125899906842624, 6140188623289049/562949953421312]

/-- Row 5 of the tabulated haversine distances (exact IEEE-754 values). -/
def distRow5 : List ℚ :=
  [6369036559676853/1125899906842624, 5095258432354663/1125899906842624, 1910732851249075/562949953421312, 5095316760667235/2251799813685248, 5095345904369783/4503599627370496, 0, 2547702075427169/2251799813685248, 5095433253647451/2251799813685248, 3821596757101377/1125899906842624, 5095491418322585/1125899906842624, 6369400600259237/1125899906842624, 7643324292688617/1125899906842624, 8917262485383391/1125899906842624, 2547803792030443/281474976710656, 5732591165338755/562949953421312, 3184790990707043/281474976710656, 875822503397015/70368744177664, 7643585297512351/562949953421312, 4140298893656523/281474976710656, 8917617491466233/562949953421312, 4777322202431243/281474976710656, 1273959815298787/70368744177664, 2707179959735213/140737488355328, 1698256248622535/281474976710656, 5715397434813929/9007199254740992, 6798776396012717/2251799813685248, 4099610597240093/562949953421312, 5946661212060487/1125899906842624, 172532837322071/17592186044416, 6504514934661069/562949953421312, 1698749842274333/140737488355328, 1014322805458583/70368744177664, 6028233881244275/562949953421312, 8904408163327593/1125899906842624, 331783400577837/17592186044416, 8577973376173897/2251799813685248, 5956595548401859/562949953421312, 3821345962735085/1125899906842624, 1557305487972131/1125899906842624, 3682449618059457/562949953421312, 3957163322851049/1125899906842624, 416127835603015/70368744177664, 5577821702473773/562949953421312]

/-- Row 6 of the tabulated haversine distances (exact IEEE-754 values). -/
def distRow6 : List ℚ :=
  [7642887591945243/1125899906842624, 796138683304973/140737488355328, 5095316738035655/1125899906842624, 7643018833919325/2251799813685248, 5095375026887367/2251799813685248, 2547702075427169/2251799813685248, 0, 5095462357887953/4503599627370496, 2547745720472835/1125899906842624, 7643280765556175/2251799813685248, 5095549566159133/1125899906842624, 796184157549095/140737488355328, 3821705727625567/562949953421312, 4458682070255987/562949953421312, 2547832826487131/281474976710656, 5732656470668929/562949953421312, 6369654518228983/562949953421312, 7006659790541667/562949953421312, 7643672282496999/562949953421312, 4140345994491379/281474976710656, 1114714863111159/70368744177664, 4777376512552393/281474976710656, 2547948586130059/140737488355328, 2016695403259021/281474976710656, 7778551208373751/4503599627370496, 8505053526101263/4503599627370496, 7939284185528239/1125899906842624, 2336498947712155/562949953421312, 1221037223902515/140737488355328, 2973261891480615/281474976710656, 6158088806232289/562949953421312, 1873910464518023/140737488355328, 1396682451348179/140737488355328, 2100886784433903/281474976710656, 2495037191248149/140737488355328, 3017749886948847/1125899906842624, 5446342340437959/562949953421312, 5855915324024881/2251799813685248, 4619248304118907/18014398509481984, 883918076320477/140737488355328, 5581737674809899/2251799813685248, 5388055360473525/1125899906842624, 5033255376550373/562949953421312]

/-- Row 7 of the tabulated haversine distances (exact IEEE-754 values). -/
def distRow7 : List ℚ :=
  [8916753173800957/1125899906842624, 7642975050474073/1125899906842624, 6369182323884177/1125899906842624, 2547687502129285/562949953421312, 7463970902011/2199023255552, 5095433253647451/2251799813685248, 5095462357887953/4503599627370496, 0, 5095520525448779/4503599627370496, 5095549588779289/2251799813685248, 7643367957706479/2251799813685248, 2547803837264633/562949953421312, 3184772935594697/562949953421312, 7643498558610843/1125899906842624, 8917465726566367/1125899906842624, 2547861841208133/281474976710656, 5732721731593417/562949953421312, 12440873058011/1099511627776, 7006739499630679/562949953421312, 7643759208268093/562949953421312, 4140393063251975/281474976710656, 8917820249226247/562949953421312, 4777430785662837/281474976710656, 4670289474451133/562949953421312, 6418205872388145/2251799813685248, 213823495149733/281474976710656, 3939648276192079/562949953421312, 3399461854424703/1125899906842624, 8494494064054819/1125899906842624, 5406013964237547/562949953421312, 5521174591120465/562949953421312, 859997967002171/70368744177664, 2593018451891669/281474976710656, 8074450689029373/1125899906842624, 4671611139602879/281474976710656, 7001193733548479/4503599627370496, 4965450732388571/562949953421312, 4811972401094901/2251799813685248, 1986871986287281/2251799813685248, 7000863403570325/1125899906842624, 7115312177779105/4503599627370496, 4120440121251707/1125899906842624, 4512941207134503/562949953421312]

/-- Row 8 of the tabulated haversine distances (exact IEEE-754 values). -/
def distRow8 : List ℚ :=
  [5095316647508721/562949953421312, 1114606896778811/140737488355328, 7643062449816169/1125899906842624, 6369255132002293/1125899906842624, 5095433231021741/1125899906842624, 3821596757101377/1125899906842624, 2547745720472835/1125899906842624, 5095520525448779/4503599627370496, 0, 5095578653553197/4503599627370496, 5095607697146187/2251799813685248, 7643455090660347/2251799813685248, 2547832871715355/562949953421312, 199050576020357/35184372088832, 955448200345571/140737488355328, 2229391810886555/281474976710656, 5095781672386687/562949953421312, 5732786948109761/562949953421312, 6369799443831853/562949953421312, 7006819154440249/562949953421312, 7643846074824779/562949953421312, 4140440099936595/281474976710656, 4458960762237963/281474976710656, 2653601892741767/281474976710656, 4478916180568945/1125899906842624, 6929068005418811/18014398509481984, 4011875536425817/562949953421312, 4252615923611873/2251799813685248, 3610349078613851/562949953421312, 4888790028192325/562949953421312, 2442129073546179/281474976710656, 6268577517004991/562949953421312, 2418156218454359/281474976710656, 7938516474328139/1125899906842624, 8706289551955129/562949953421312, 8247510968643065/18014398509481984, 1130824547865587/140737488355328, 2500059323174407/1125899906842624, 2266276346874869/1125899906842624, 7160053975299399/1125899906842624, 2672148008102731/2251799813685248, 5716760650748799/2251799813685248, 8052591797876937/1125899906842624]

/-- Row 9 of the tabulated haversine distances (exact IEEE-754 values). -/
def distRow9 : List ℚ :=
  [179133249146457/17592186044416, 5095374913743531/562949953421312, 8916957105609169/1125899906842624, 1910787447491969/281474976710656, 3184663945398279/562949953421312, 5095491418322585/1125899906842624, 7643280765556175/2251799813685248, 5095549588779289/2251799813685248, 5095578653553197/4503599627370496, 0, 2547818371090291/2251799813685248, 5095665766044859/2251799813685248, 955442770550631/281474976710656, 5095723772861653/1125899906842624, 6369690944771575/1125899906842624, 955459073463483/140737488355328, 8917668691447021/1125899906842624, 1273959905720255/140737488355328, 5732852120215735/562949953421312, 6369871832614693/562949953421312, 7006898754967475/562949953421312, 955491610270197/70368744177664, 4140487104543599/281474976710656, 5944131042831843/562949953421312, 5750545424536489/1125899906842624, 1699754137588533/1125899906842624, 8362065855354917/1125899906842624, 6842476483398989/9007199254740992, 371682778267343/70368744177664, 4403068897272693/562949953421312, 8494683496377911/1125899906842624, 707850380296271/70368744177664, 284333068792579/35184372088832, 8005597093149935/1125899906842624, 2017337708175201/140737488355328, 1689281418291269/2251799813685248, 4132341862052973/562949953421312, 3155570963630851/1125899906842624, 7079757265245799/2251799813685248, 7534379794543437/1125899906842624, 7643720047933593/4503599627370496, 6459951211986293/4503599627370496, 7174105770302585/1125899906842624]

/-- Row 10 of the tabulated haversine distances (exact IEEE-754 values). -/
def distRow10 : List ℚ :=
  [6369218557321377/562949953421312, 2866164750004421/281474976710656, 2547716570259141/281474976710656, 4458529483964101/562949953421312, 3821618535463235/562949953421312, 6369400600259237/1125899906842624, 5095549566159133/1125899906842624, 7643367957706479/2251799813685248, 5095607697146187/2251799813685248, 2547818371090291/2251799813685248, 0, 5095694791348547/4503599627370496, 5095723795472879/2251799813685248, 7643629178947269/2251799813685248, 5095781762819981/1125899906842624, 3184881703775279/562949953421312, 3821879756720685/562949953421312, 8917770070264915/1125899906842624, 5095897533899621/562949953421312, 2866458623954483/281474976710656, 6369944172049823/562949953421312, 875872287651181/70368744177664, 7644019630277785/562949953421312, 6581069591665441/562949953421312, 7023012184191149/1125899906842624, 1486311773646255/562949953421312, 4436048832087299/562949953421312, 1732321684403609/4503599627370496, 1168300749855229/281474976710656, 495057730488577/70368744177664, 3610429269542619/562949953421312, 1266171063870749/140737488355328, 1084390331771177/140737488355328, 4135380499766419/562949953421312, 3716203227335011/281474976710656, 2099233959533657/1125899906842624, 3808385074318691/562949953421312, 8224566839672455/2251799813685248, 2406824817374071/562949953421312, 8094054413944297/1125899906842624, 5920817326423825/2251799813685248, 1080148895635681/2251799813685248, 803676522828177/140737488355328]

/-- Row 11 of the tabulated haversine distances (exact IEEE-754 values). -/
def distRow11 : List ℚ :=
  [7006180396302869/562949953421312, 6369291340800817/562949953421312, 716549372867321/70368744177664, 5095491327830777/562949953421312, 2229290190297315/281474976710656, 7643324292688617/1125899906842624, 796184157549095/140737488355328, 2547803837264633/562949953421312, 7643455090660347/2251799813685248, 5095665766044859/2251799813685248, 5095694791348547/4503599627370496, 0, 5095752801034631/4503599627370496, 5095781785428131/2251799813685248, 7643716134273969/2251799813685248, 5095839713301999/1125899906842624, 3184917910492307/562949953421312, 3821923189978417/562949953421312, 8917871379996209/1125899906842624, 5095955405437911/562949953421312, 5732982331186923/562949953421312, 398126028883259/35184372088832, 7007057793163273/562949953421312, 3609009179711515/281474976710656, 1036992220103461/140737488355328, 530766509266667/140737488355328, 4763155636968441/562949953421312, 6799187164043777/4503599627370496, 3399608867570433/1125899906842624, 7154026149007483/1125899906842624, 2973527902067375/562949953421312, 8954586928285253/1125899906842624, 8424743230153371/1125899906842624, 8715954472043723/1125899906842624, 6795456874111739/562949953421312, 6736739730520665/2251799813685248, 7139438919675755/1125899906842624, 1301685153911219/281474976710656, 380468284488805/70368744177664, 8803805842447205/1125899906842624, 517238798985457/140737488355328, 8839668612513321/9007199254740992, 5869666739192215/1125899906842624]

/-- Row 12 of the tabulated haversine distances (exact IEEE-754 values). -/
def distRow12 : List ℚ :=
  [7643149484518677/562949953421312, 109472819234481/8796093022208, 6369364074952523/562949953421312, 5732460421470797/562949953421312, 1273887368919761/140737488355328, 8917262485383391/1125899906842624, 3821705727625567/562949953421312, 3184772935594697/562949953421312, 2547832871715355/562949953421312, 955442770550631/281474976710656, 5095723795472879/2251799813685248, 5095752801034631/4503599627370496, 0, 5095810771257063/4503599627370496, 636979966988601/281474976710656, 955475378798625/281474976710656, 1273974406077391/281474976710656, 6369908185071103/1125899906842624, 1910983296814043/281474976710656, 8917972620637359/1125899906842624, 637001654687021/70368744177664, 2866523685023655/281474976710656, 6370088702861557/562949953421312, 7854976619750609/562949953421312, 4784572419594611/562949953421312, 5519847410951805/1125899906842624, 5148633903057177/562949953421312, 5945390396360745/2251799813685248, 8505587764025937/4503599627370496, 6547163333646961/1125899906842624, 2336652671180919/562949953421312, 7810955507250083/1125899906842624, 8363093195403597/1125899906842624, 582212978246009/70368744177664, 1539625683481161/140737488355328, 290008928767791/70368744177664, 6868355653831407/1125899906842624, 3184162272392115/562949953421312, 920172196763975/140737488355328, 1203814449417669/140737488355328, 5359721366005017/1125899906842624, 2322941152166283/1125899906842624, 5551111967874005/1125899906842624]

/-- Row 13 of the tabulated haversine distances (exact IEEE-754 values). -/
def distRow13 : List ℚ :=
  [8280125816859157/562949953421312, 7643236765516849/562949953421312, 437896275715625/35184372088832, 3184718379886883/281474976710656, 5732525815605835/562949953421312, 2547803792030443/281474976710656, 4458682070255987/562949953421312, 7643498558610843/1125899906842624, 199050576020357/35184372088832, 5095723772861653/1125899906842624, 7643629178947269/2251799813685248, 5095781785428131/2251799813685248, 5095810771257063/4503599627370496, 0, 2547934350996997/2251799813685248, 5095897646909639/2251799813685248, 955486233410869/281474976710656, 2547977747917739/562949953421312, 6369980499807385/1125899906842624, 7644019935331287/1125899906842624, 4459036896092183/562949953421312, 5096071030069819/562949953421312, 5733112364487757/562949953421312, 33171655713577/2199023255552, 5421269675985833/562949953421312, 6793661383920859/1125899906842624, 2790201387604323/281474976710656, 8492465422529827/2251799813685248, 3421362627198771/4503599627370496, 6147919594391497/1125899906842624, 6799364448552283/2251799813685248, 6714418354681599/1125899906842624, 8494289335037241/1125899906842624, 627596076619695/70368744177664, 690193121414145/70368744177664, 5912860948577059/1125899906842624, 1707034377393125/281474976710656, 945773612661353/140737488355328, 4317646237580131/562949953421312, 5273360576798093/562949953421312, 3300646232806927/562949953421312, 7160211611436311/2251799813685248, 1378926686193427/281474976710656]

/-- Row 14 of the tabulated haversine distances (exact IEEE-754 values). -/
def distRow14 : List ℚ :=
  [8917109388212427/562949953421312, 8280220339218877/562949953421312, 1910830996829655/140737488355328, 3503210168813529/281474976710656, 6369509395262125/562949953421312, 5732591165338755/562949953421312, 2547832826487131/281474976710656, 8917465726566367/1125899906842624, 955448200345571/140737488355328, 6369690944771575/1125899906842624, 5095781762819981/1125899906842624, 7643716134273969/2251799813685248, 636979966988601/281474976710656, 2547934350996997/2251799813685248, 0, 1273981648314185/1125899906842624, 5095955518436145/2251799813685248, 3821988322482177/1125899906842624, 5096013327882561/1125899906842624, 3185026382595411/562949953421312, 3822053312091821/562949953421312, 8918174894633545/1125899906842624, 5096128783159223/562949953421312, 570557482444991/35184372088832, 6058033380555735/562949953421312, 8067534125330781/1125899906842624, 378034965259635/35184372088832, 5519977017520127/1125899906842624, 6929723304573455/18014398509481984, 5997908255649033/1125899906842624, 8505765359651007/4503599627370496, 2846133405176055/562949953421312, 4404863200695921/562949953421312, 5434494524050225/562949953421312, 4884585009690371/562949953421312, 1796507422101425/281474976710656, 3511379921922423/562949953421312, 4392756231575787/562949953421312, 1238653913775949/140737488355328, 180173660843707/17592186044416, 3926632151978861/562949953421312, 4846065419853103/1125899906842624, 1442169123614615/281474976710656]

/-- Row 15 of the tabulated haversine distances (exact IEEE-754 values). -/
def distRow15 : List ℚ :=
  [298565631045891/17592186044416, 8917211147002651/562949953421312, 8280314797447913/562949953421312, 7643411149919951/562949953421312, 7006500209536947/562949953421312, 3184790990707043/281474976710656, 5732656470668929/562949953421312, 2547861841208133/281474976710656, 2229391810886555/281474976710656, 955459073463483/140737488355328, 3184881703775279/562949953421312, 5095839713301999/1125899906842624, 955475378798625/281474976710656, 5095897646909639/2251799813685248, 1273981648314185/1125899906842624, 0, 2547992222522511/2251799813685248, 5096013350479197/2251799813685248, 7644063363421195/2251799813685248, 5096071120445353/1125899906842624, 1592531245305013/281474976710656, 7644193253806725/1125899906842624, 8918275927982787/1125899906842624, 2441475978739309/140737488355328, 6694846634234021/562949953421312, 2335361876724319/281474976710656, 818162835447433/70368744177664, 849227492691671/140737488355328, 3399763847225081/2251799813685248, 1528876678403863/281474976710656, 6842849386756649/9007199254740992, 4792347994099873/1125899906842624, 2322665788063569/281474976710656, 1472053672699291/140737488355328, 1061906280807779/140737488355328, 4229726071231951/562949953421312, 1858452002992839/281474976710656, 5009234275565005/562949953421312, 1397898854814239/140737488355328, 6283843370277633/562949953421312, 4555678258572683/562949953421312, 6115369454089407/1125899906842624, 1568812791814871/281474976710656]

/-- Row 16 of the tabulated haversine distances (exact IEEE-754 values). -/
def distRow16 : List ℚ :=
  [2547774556879475/140737488355328, 4777104591879205/281474976710656, 4458656418363935/281474976710656, 8280409191542183/562949953421312, 477718640832487/35184372088832, 875822503397015/70368744177664, 6369654518228983/562949953421312, 5732721731593417/562949953421312, 5095781672386687/562949953421312, 8917668691447021/1125899906842624, 3821879756720685/562949953421312, 3184917910492307/562949953421312, 1273974406077391/281474976710656, 955486233410869/281474976710656, 5095955518436145/2251799813685248, 2547992222522511/2251799813685248, 0, 2548021128670429/2251799813685248, 2548035571519461/1125899906842624, 238879688207709/70368744177664, 1274032218380639/281474976710656, 1592549286972157/281474976710656, 3822139912099245/562949953421312, 5201448120973001/281474976710656, 7331698406172801/562949953421312, 2653848024221209/281474976710656, 3532303434823843/281474976710656, 2016930403745473/281474976710656, 743209551840185/281474976710656, 6486183957766115/1125899906842624, 3464970569641789/9007199254740992, 512006132047823/140737488355328, 2478261600417587/281474976710656, 6373395444451263/562949953421312, 7221338374591311/1125899906842624, 304157324995391/35184372088832, 8028113676170175/1125899906842624, 2815146236745669/281474976710656, 194643267824677/17592186044416, 3411138890636055/281474976710656, 162083559394271/17592186044416, 3693150705706453/562949953421312, 3490221241446723/562949953421312]

/-- Row 17 of the tabulated haversine distances (exact IEEE-754 values). -/
def distRow17 : List ℚ :=
  [2707025871312333/140737488355328, 5095607222187319/281474976710656, 4777159050023363/281474976710656, 1114676807172719/70368744177664, 8280503521498401/562949953421312, 7643585297512351/562949953421312, 7006659790541667/562949953421312, 12440873058011/1099511627776, 5732786948109761/562949953421312, 1273959905720255/140737488355328, 8917770070264915/1125899906842624, 3821923189978417/562949953421312, 6369908185071103/1125899906842624, 2547977747917739/562949953421312, 3821988322482177/1125899906842624, 5096013350479197/2251799813685248, 2548021128670429/2251799813685248, 0, 5096100030162491/4503599627370496, 2548064448056761/1125899906842624, 3822118311323615/1125899906842624, 5096186587112219/1125899906842624, 6370269265199005/1125899906842624, 5519948269360355/281474976710656, 3984290594792499/281474976710656, 5944681250681691/562949953421312, 1900462901032197/140737488355328, 2335415977322067/281474976710656, 8492867149060913/2251799813685248, 3535127065639255/562949953421312, 3399848805562045/2251799813685248, 929888014968083/281474976710656, 2663029180438463/281474976710656, 3441694710930511/281474976710656, 5947448786467295/1125899906842624, 2751681500026363/281474976710656, 4384249901110141/562949953421312, 6254568792104605/562949953421312, 6865582503080503/562949953421312, 7376451487591617/562949953421312, 5818987272668539/562949953421312, 2164537700811323/281474976710656, 3915390745132223/562949953421312]

/-- Row 18 of the tabulated haversine distances (exact IEEE-754 values). -/
def distRow18 : List ℚ :=
  [1433139495194289/70368744177664, 2707056730935649/140737488355328, 5095665291147747/281474976710656, 4777213471164707/281474976710656, 8917516008963289/562949953421312, 4140298893656523/281474976710656, 7643672282496999/562949953421312, 7006739499630679/562949953421312, 6369799443831853/562949953421312, 5732852120215735/562949953421312, 5095897533899621/562949953421312, 8917871379996209/1125899906842624, 1910983296814043/281474976710656, 6369980499807385/1125899906842624, 5096013327882561/1125899906842624, 7644063363421195/2251799813685248, 2548035571519461/1125899906842624, 5096100030162491/4503599627370496, 0, 5096157763488075/4503599627370496, 5096186609700277/2251799813685248, 7644323163409797/2251799813685248, 5096244261212237/1125899906842624, 5838452339005793/281474976710656, 134460776532363/8796093022208, 3290838852613587/281474976710656, 4076746478881141/281474976710656, 5307818696282151/562949953421312, 5520235701238741/1125899906842624, 7820055359814729/1125899906842624, 2972909565632725/1125899906842624, 7520387892559283/2251799813685248, 1435671863132913/140737488355328, 7413079050293029/562949953421312, 4673611534770329/1125899906842624, 3070124352228793/281474976710656, 1202663387089357/140737488355328, 6881189421356501/562949953421312, 7502588815773195/562949953421312, 3971536296380435/281474976710656, 6452233110307807/562949953421312, 2482642671745881/281474976710656, 4392111442670317/562949953421312]

/-- Row 19 of the tabulated haversine distances (exact IEEE-754 values). -/
def distRow19 : List ℚ :=
  [6051067825661055/281474976710656, 1433155827093913/70368744177664, 1353543784795369/70368744177664, 5095723320636849/281474976710656, 4777267855301367/281474976710656, 8917617491466233/562949953421312, 4140345994491379/281474976710656, 7643759208268093/562949953421312, 7006819154440249/562949953421312, 6369871832614693/562949953421312, 2866458623954483/281474976710656, 5095955405437911/562949953421312, 8917972620637359/1125899906842624, 7644019935331287/1125899906842624, 3185026382595411/562949953421312, 5096071120445353/1125899906842624, 238879688207709/70368744177664, 2548064448056761/1125899906842624, 5096157763488075/4503599627370496, 0, 1274053864333505/1125899906842624, 5096244283797083/2251799813685248, 7644409644941105/2251799813685248, 192405008715971/8796093022208, 144412814074447/8796093022208, 7218684339442485/562949953421312, 2179199916643409/140737488355328, 743102291924425/70368744177664, 6794136408909099/1125899906842624, 8692813658745977/1125899906842624, 1061633450159223/281474976710656, 8411825244865097/2251799813685248, 6196921349572047/562949953421312, 1989633605094619/140737488355328, 3399901694791741/1125899906842624, 6777165094165005/562949953421312, 659958578944239/70368744177664, 3754784682717813/281474976710656, 4069801615502717/281474976710656, 8519659531584031/562949953421312, 1771540843201439/140737488355328, 2800842899737905/281474976710656, 4905379343649721/562949953421312]

/-- Row 20 of the tabulated haversine distances (exact IEEE-754 values). -/
def distRow20 : List ℚ :=
  [199049414835071/8796093022208, 3025568379573083/140737488355328, 2866344295785103/140737488355328, 5414236774552837/281474976710656, 5095781310653777/281474976710656, 4777322202431243/281474976710656, 1114714863111159/70368744177664, 4140393063251975/281474976710656, 7643846074824779/562949953421312, 7006898754967475/562949953421312, 6369944172049823/562949953421312, 5732982331186923/562949953421312, 637001654687021/70368744177664, 4459036896092183/562949953421312, 3822053312091821/562949953421312, 1592531245305013/281474976710656, 1274032218380639/281474976710656, 3822118311323615/1125899906842624, 5096186609700277/2251799813685248, 1274053864333505/1125899906842624, 0, 1274068277919927/1125899906842624, 5096301918402449/2251799813685248, 404717002975579/17592186044416, 4939684776624847/281474976710656, 1963925106731645/140737488355328, 2322412837862089/140737488355328, 3290914608508385/281474976710656, 4034047913994397/562949953421312, 4827624512270811/562949953421312, 5520364778352067/1125899906842624, 1237111176225699/281474976710656, 3340548239963371/281474976710656, 8516728518683091/562949953421312, 2126574173773767/1125899906842624, 7414106115859767/562949953421312, 5780935436290943/562949953421312, 4069651423634213/281474976710656, 274269548449431/17592186044416, 4552160281061019/281474976710656, 7720611249553779/562949953421312, 3119110333949229/281474976710656, 2722435622733745/281474976710656]

/-- Row 21 of the tabulated haversine distances (exact IEEE-754 values). -/
def distRow21 : List ℚ :=
  [3344049162702837/140737488355328, 6369653811627585/281474976710656, 1512801411439639/70368744177664, 1433188457589291/70368744177664, 5414298367983249/281474976710656, 1273959815298787/70368744177664, 4777376512552393/281474976710656, 8917820249226247/562949953421312, 4140440099936595/281474976710656, 955491610270197/70368744177664, 875872287651181/70368744177664, 398126028883259/35184372088832, 2866523685023655/281474976710656, 5096071030069819/562949953421312, 8918174894633545/1125899906842624, 7644193253806725/1125899906842624, 1592549286972157/281474976710656, 5096186587112219/1125899906842624, 7644323163409797/2251799813685248, 5096244283797083/2251799813685248, 1274068277919927/1125899906842624, 0, 637041340817847/562949953421312, 3396993805464387/140737488355328, 5258167949444563/281474976710656, 1061590682208707/70368744177664, 308449613767511/17592186044416, 3609425134245899/281474976710656, 583880989332673/70368744177664, 2670789312261847/281474976710656, 3397147159312667/562949953421312, 367271296236781/70368744177664, 7189167854506747/562949953421312, 2271328795915819/140737488355328, 3421610385482107/4503599627370496, 4025533814966797/281474976710656, 6306770643388245/562949953421312, 4385049932494637/281474976710656, 294176738369365/17592186044416, 2423899140173533/140737488355328, 4177730236747709/281474976710656, 6874854612263965/562949953421312, 3001761960696695/281474976710656]

/-- Row 22 of the tabulated haversine distances (exact IEEE-754 values). -/
def distRow22 : List ℚ :=
  [218956842973671/8796093022208, 3344087231632997/140737488355328, 3184863149596247/140737488355328, 756409310686959/35184372088832, 716602378091937/35184372088832, 2707179959735213/140737488355328, 2547948586130059/140737488355328, 4777430785662837/281474976710656, 4458960762237963/281474976710656, 4140487104543599/281474976710656, 7644019630277785/562949953421312, 7007057793163273/562949953421312, 6370088702861557/562949953421312, 5733112364487757/562949953421312, 5096128783159223/562949953421312, 8918275927982787/1125899906842624, 3822139912099245/562949953421312, 6370269265199005/1125899906842624, 5096244261212237/1125899906842624, 7644409644941105/2251799813685248, 5096301918402449/2251799813685248, 637041340817847/562949953421312, 0, 3556253470181089/140737488355328, 5576658736236645/281474976710656, 570609941410651/35184372088832, 326803011883077/17592186044416, 490992547712955/35184372088832, 2654031745178975/281474976710656, 2939846553875535/281474976710656, 8068282551290309/1125899906842624, 6915391334487221/1125899906842624, 7716418493350701/562949953421312, 2415615338662901/140737488355328, 6930592848067455/18014398509481984, 2172011677277371/140737488355328, 6851521913404457/562949953421312, 4700873904634931/281474976710656, 2512673338244093/140737488355328, 5146174433028073/281474976710656, 8990627550126381/562949953421312, 1877891067242955/140737488355328, 822057286729277/70368744177664]

/-- Row 23 of the tabulated haversine distances (exact IEEE-754 values). -/
def distRow23 : List ℚ :=
  [3464095042863033/9007199254740992, 212447867903273/140737488355328, 5944671937311757/2251799813685248, 8491456311901965/2251799813685248, 5519327220384267/1125899906842624, 1698256248622535/281474976710656, 2016695403259021/281474976710656, 4670289474451133/562949953421312, 2653601892741767/281474976710656, 5944131042831843/562949953421312, 6581069591665441/562949953421312, 3609009179711515/281474976710656, 7854976619750609/562949953421312, 33171655713577/2199023255552, 570557482444991/35184372088832, 2441475978739309/140737488355328, 5201448120973001/281474976710656, 5519948269360355/281474976710656, 5838452339005793/281474976710656, 192405008715971/8796093022208, 404717002975579/17592186044416, 3396993805464387/140737488355328, 3556253470181089/140737488355328, 0, 6149047121320933/1125899906842624, 636912707298097/70368744177664, 373661673293093/35184372088832, 6369199833596871/562949953421312, 4458541605251607/281474976710656, 1204054149326223/70368744177664, 5095534165212421/281474976710656, 1430136991363851/70368744177664, 8775314254796715/562949953421312, 1671825272807387/140737488355328, 7006598462752073/281474976710656, 5539929612925739/562949953421312, 8938578153275239/562949953421312, 5028081283818941/562949953421312, 8349914010977989/1125899906842624, 5709098741757983/562949953421312, 5295802749185857/562949953421312, 6719701677223353/562949953421312, 8681920027896827/562949953421312]

/-- Row 24 of the tabulated haversine distances (exact IEEE-754 values). -/
def distRow24 : List ℚ :=
  [358126186384965/70368744177664, 8917049233024471/2251799813685248, 6377686352483055/2251799813685248, 1924595100101253/1125899906842624, 5568998569712125/9007199254740992, 5715397434813929/9007199254740992, 7778551208373751/4503599627370496, 6418205872388145/2251799813685248, 4478916180568945/1125899906842624, 5750545424536489/1125899906842624, 7023012184191149/1125899906842624, 1036992220103461/140737488355328, 4784572419594611/562949953421312, 5421269675985833/562949953421312, 6058033380555735/562949953421312, 6694846634234021/562949953421312, 7331698406172801/562949953421312, 3984290594792499/281474976710656, 134460776532363/8796093022208, 144412814074447/8796093022208, 4939684776624847/281474976710656, 5258167949444563/281474976710656, 5576658736236645/281474976710656, 6149047121320933/1125899906842624, 0, 2025396072774243/562949953421312, 8119301118269725/1125899906842624, 6596451785731551/1125899906842624, 730671726080925/70368744177664, 3363908933847167/281474976710656, 7119190501930229/562949953421312, 8398249866683233/562949953421312, 6165415076183053/562949953421312, 4478285277056699/562949953421312, 5470527073086471/281474976710656, 2479303763020899/562949953421312, 3071578416139957/281474976710656, 8383159676982529/2251799813685248, 8931840835605017/4503599627370496, 457111104011159/70368744177664, 8985413989314463/2251799813685248, 227831421406219/35184372088832, 5792160476100771/562949953421312]

/-- Row 25 of the tabulated haversine distances (exact IEEE-754 values). -/
def distRow25 : List ℚ :=
  [4883820249539937/562949953421312, 2123481055147813/281474976710656, 902526962740277/140737488355328, 5946529323739401/1125899906842624, 4672895134398791/1125899906842624, 6798776396012717/2251799813685248, 8505053526101263/4503599627370496, 213823495149733/281474976710656, 6929068005418811/18014398509481984, 1699754137588533/1125899906842624, 1486311773646255/562949953421312, 530766509266667/140737488355328, 5519847410951805/1125899906842624, 6793661383920859/1125899906842624, 8067534125330781/1125899906842624, 2335361876724319/281474976710656, 2653848024221209/281474976710656, 5944681250681691/562949953421312, 3290838852613587/281474976710656, 7218684339442485/562949953421312, 1963925106731645/140737488355328, 1061590682208707/70368744177664, 570609941410651/35184372088832, 636912707298097/70368744177664, 2025396072774243/562949953421312, 0, 7863461443138685/1125899906842624, 2547796379382245/1125899906842624, 7643563225637133/1125899906842624, 1257720086369059/140737488355328, 5095766764450397/562949953421312, 6458481419927281/562949953421312, 4907872132483413/562949953421312, 61490663374223/8796093022208, 8917895488867947/562949953421312, 235275213174493/281474976710656, 2316095614683895/281474976710656, 4611165856509681/2251799813685248, 1848256353483031/1125899906842624, 6992405422683651/1125899906842624, 2568636197402651/2251799813685248, 6530344649896197/2251799813685248, 8307771838577149/1125899906842624]

/-- Row 26 of the tabulated haversine distances (exact IEEE-754 values). -/
def distRow26 : List ℚ :=
  [5849988317240569/562949953421312, 2697982407072625/281474976710656, 4982157096156091/562949953421312, 4619388519147311/562949953421312, 4320537807151573/562949953421312, 4099610597240093/562949953421312, 7939284185528239/1125899906842624, 3939648276192079/562949953421312, 4011875536425817/562949953421312, 8362065855354917/1125899906842624, 4436048832087299/562949953421312, 4763155636968441/562949953421312, 5148633903057177/562949953421312, 2790201387604323/281474976710656, 378034965259635/35184372088832, 818162835447433/70368744177664, 3532303434823843/281474976710656, 1900462901032197/140737488355328, 4076746478881141/281474976710656, 2179199916643409/140737488355328, 2322412837862089/140737488355328, 308449613767511/17592186044416, 326803011883077/17592186044416, 373661673293093/35184372088832, 8119301118269725/1125899906842624, 7863461443138685/1125899906842624, 0, 1075358919995377/140737488355328, 2929577246039119/281474976710656, 2362520389430197/281474976710656, 3431968538384073/281474976710656, 7079221110624033/562949953421312, 6422959740609793/1125899906842624, 7028365445992729/4503599627370496, 1280558773225093/70368744177664, 32609830615809/4398046511104, 7563286341635193/1125899906842624, 5559319335468061/1125899906842624, 7968668766340609/1125899906842624, 7028285471746577/9007199254740992, 6699448914578487/1125899906842624, 8595650525341945/1125899906842624, 7798313718630977/1125899906842624]

/-- Row 27 of the tabulated haversine distances (exact IEEE-754 values). -/
def distRow27 : List ℚ :=
  [769709148211823/70368744177664, 690100336957837/70368744177664, 4883929946817773/562949953421312, 8494114426133435/1125899906842624, 7220376738622539/1125899906842624, 5946661212060487/1125899906842624, 2336498947712155/562949953421312, 3399461854424703/1125899906842624, 4252615923611873/2251799813685248, 6842476483398989/9007199254740992, 1732321684403609/4503599627370496, 6799187164043777/4503599627370496, 5945390396360745/2251799813685248, 8492465422529827/2251799813685248, 5519977017520127/1125899906842624, 849227492691671/140737488355328, 2016930403745473/281474976710656, 2335415977322067/281474976710656, 5307818696282151/562949953421312, 743102291924425/70368744177664, 3290914608508385/281474976710656, 3609425134245899/281474976710656, 490992547712955/35184372088832, 6369199833596871/562949953421312, 6596451785731551/1125899906842624, 2547796379382245/1125899906842624, 1075358919995377/140737488355328, 0, 5095766854886467/1125899906842624, 1017204155097651/140737488355328, 7643737166765783/1125899906842624, 2623381277328811/281474976710656, 4355709390514213/562949953421312, 63072026011757/8796093022208, 1910999332318991/140737488355328, 6775367672252685/4503599627370496, 7735959795606341/1125899906842624, 929330056813509/281474976710656, 4392444650166367/1125899906842624, 7809159045842405/1125899906842624, 2543747367772567/1125899906842624, 6324761466986403/9007199254740992, 6584395833556855/1125899906842624]

/-- Row 28 of the tabulated haversine distances (exact IEEE-754 values). -/
def distRow28 : List ℚ :=
  [8705504463958389/562949953421312, 8068624006198997/562949953421312, 3715868925028633/281474976710656, 6794846451747565/562949953421312, 6157950454119763/562949953421312, 172532837322071/17592186044416, 1221037223902515/140737488355328, 8494494064054819/1125899906842624, 3610349078613851/562949953421312, 371682778267343/70368744177664, 1168300749855229/281474976710656, 3399608867570433/1125899906842624, 8505587764025937/4503599627370496, 3421362627198771/4503599627370496, 6929723304573455/18014398509481984, 3399763847225081/2251799813685248, 743209551840185/281474976710656, 8492867149060913/2251799813685248, 5520235701238741/1125899906842624, 6794136408909099/1125899906842624, 4034047913994397/562949953421312, 583880989332673/70368744177664, 2654031745178975/281474976710656, 4458541605251607/281474976710656, 730671726080925/70368744177664, 7643563225637133/1125899906842624, 2929577246039119/281474976710656, 5095766854886467/1125899906842624, 0, 1481946581965771/281474976710656, 318496290059883/140737488355328, 5966236315473599/1125899906842624, 537375266793547/70368744177664, 5258078361364325/562949953421312, 5096113936136405/562949953421312, 845813046939041/140737488355328, 6843434458079123/1125899906842624, 4176622839291899/562949953421312, 2371699708414789/281474976710656, 1392609695979823/140737488355328, 7420540886983401/1125899906842624, 2208049922446073/562949953421312, 5565812299287419/1125899906842624]

/-- Row 29 of the tabulated haversine distances (exact IEEE-754 values). -/
def distRow29 : List ℚ :=
  [2361365572573319/140737488355328, 2210946477652505/140737488355328, 4123700179947023/281474976710656, 957192967753215/70368744177664, 7075851008437377/562949953421312, 6504514934661069/562949953421312, 2973261891480615/281474976710656, 5406013964237547/562949953421312, 4888790028192325/562949953421312, 4403068897272693/562949953421312, 495057730488577/70368744177664, 7154026149007483/1125899906842624, 6547163333646961/1125899906842624, 6147919594391497/1125899906842624, 5997908255649033/1125899906842624, 1528876678403863/281474976710656, 6486183957766115/1125899906842624, 3535127065639255/562949953421312, 7820055359814729/1125899906842624, 8692813658745977/1125899906842624, 4827624512270811/562949953421312, 2670789312261847/281474976710656, 2939846553875535/281474976710656, 1204054149326223/70368744177664, 3363908933847167/281474976710656, 1257720086369059/140737488355328, 2362520389430197/281474976710656, 1017204155097651/140737488355328, 1481946581965771/281474976710656, 0, 6251075790948511/1125899906842624, 2424957091238563/562949953421312, 231719301104901/70368744177664, 7751912392281007/1125899906842624, 177336836826545/17592186044416, 4782877194975003/562949953421312, 3905145812012671/2251799813685248, 4640985902343795/562949953421312, 5840715670030505/562949953421312, 290580587734959/35184372088832, 568993085518849/70368744177664, 7390581743011319/1125899906842624, 1903107530087025/1125899906842624]

/-- Row 30 of the tabulated haversine distances (exact IEEE-754 values). -/
def distRow30 : List ℚ :=
  [4989736463716499/281474976710656, 4671295083767409/281474976710656, 8705701136499687/562949953421312, 2017201520943383/140737488355328, 3715952671282537/281474976710656, 1698749842274333/140737488355328, 6158088806232289/562949953421312, 5521174591120465/562949953421312, 2442129073546179/281474976710656, 8494683496377911/1125899906842624, 3610429269542619/562949953421312, 2973527902067375/562949953421312, 2336652671180919/562949953421312, 6799364448552283/2251799813685248, 8505765359651007/4503599627370496, 6842849386756649/9007199254740992, 3464970569641789/9007199254740992, 3399848805562045/2251799813685248, 2972909565632725/1125899906842624, 1061633450159223/281474976710656, 5520364778352067/1125899906842624, 3397147159312667/562949953421312, 8068282551290309/1125899906842624, 5095534165212421/281474976710656, 7119190501930229/562949953421312, 5095766764450397/562949953421312, 3431968538384073/281474976710656, 7643737166765783/1125899906842624, 318496290059883/140737488355328, 6251075790948511/1125899906842624, 0, 4220605899649405/1125899906842624, 2403439216477909/281474976710656, 6180143557645807/562949953421312, 3822128784448989/562949953421312, 2328094773041893/281474976710656, 3866703756347201/562949953421312, 1353432953810799/140737488355328, 752156758607539/70368744177664, 6617550031044531/562949953421312, 621360640303303/70368744177664, 434889157093963/70368744177664, 6653483088326499/1125899906842624]

/-- Row 31 of the tabulated haversine distances (exact IEEE-754 values). -/
def distRow31 : List ℚ :=
  [5619707293186615/281474976710656, 5305808221351515/281474976710656, 2496241650337721/140737488355328, 4679848600749411/281474976710656, 8736106253503941/562949953421312, 1014322805458583/70368744177664, 1873910464518023/140737488355328, 859997967002171/70368744177664, 6268577517004991/562949953421312, 707850380296271/70368744177664, 1266171063870749/140737488355328, 8954586928285253/1125899906842624, 7810955507250083/1125899906842624, 6714418354681599/1125899906842624, 2846133405176055/562949953421312, 4792347994099873/1125899906842624, 512006132047823/140737488355328, 929888014968083/281474976710656, 7520387892559283/2251799813685248, 8411825244865097/2251799813685248, 1237111176225699/281474976710656, 367271296236781/70368744177664, 6915391334487221/1125899906842624, 1430136991363851/70368744177664, 8398249866683233/562949953421312, 6458481419927281/562949953421312, 7079221110624033/562949953421312, 2623381277328811/281474976710656, 5966236315473599/1125899906842624, 2424957091238563/562949953421312, 4220605899649405/1125899906842624, 0, 4259078492018869/562949953421312, 782033250382765/70368744177664, 3255113955696721/562949953421312, 6084527332998383/562949953421312, 6799516104059587/1125899906842624, 6435178173440779/562949953421312, 7366537298632017/562949953421312, 869199390649617/70368744177664, 6153166388305725/562949953421312, 151749807907389/17592186044416, 6360922221084871/1125899906842624]

/-- Row 32 of the tabulated haversine distances (exact IEEE-754 values). -/
def distRow32 : List ℚ :=
  [4305552834793639/281474976710656, 2015038621874153/140737488355328, 940348867899271/70368744177664, 3501072990285611/281474976710656, 6502239033871737/562949953421312, 6028233881244275/562949953421312, 1396682451348179/140737488355328, 2593018451891669/281474976710656, 2418156218454359/281474976710656, 284333068792579/35184372088832, 1084390331771177/140737488355328, 8424743230153371/1125899906842624, 8363093195403597/1125899906842624, 8494289335037241/1125899906842624, 4404863200695921/562949953421312, 2322665788063569/281474976710656, 2478261600417587/281474976710656, 2663029180438463/281474976710656, 1435671863132913/140737488355328, 6196921349572047/562949953421312, 3340548239963371/281474976710656, 7189167854506747/562949953421312, 7716418493350701/562949953421312, 8775314254796715/562949953421312, 6165415076183053/562949953421312, 4907872132483413/562949953421312, 6422959740609793/1125899906842624, 4355709390514213/562949953421312, 537375266793547/70368744177664, 231719301104901/70368744177664, 2403439216477909/281474976710656, 4259078492018869/562949953421312, 0, 4667898934572023/1125899906842624, 3757090485224187/281474976710656, 4826630175541663/562949953421312, 7549031104142039/4503599627370496, 8262827598331621/1125899906842624, 5517167405742971/562949953421312, 6531582559987303/1125899906842624, 4301012955665877/562949953421312, 8154073819717611/1125899906842624, 760533909830649/281474976710656]

/-- Row 33 of the tabulated haversine distances (exact IEEE-754 values). -/
def distRow33 : List ℚ :=
  [6544452742744909/562949953421312, 6050249651762209/562949953421312, 5585028966883629/562949953421312, 322290221628279/35184372088832, 4775020517802289/562949953421312, 8904408163327593/1125899906842624, 2100886784433903/281474976710656, 8074450689029373/1125899906842624, 7938516474328139/1125899906842624, 8005597093149935/1125899906842624, 4135380499766419/562949953421312, 8715954472043723/1125899906842624, 582212978246009/70368744177664, 627596076619695/70368744177664, 5434494524050225/562949953421312, 1472053672699291/140737488355328, 6373395444451263/562949953421312, 3441694710930511/281474976710656, 7413079050293029/562949953421312, 1989633605094619/140737488355328, 8516728518683091/562949953421312, 2271328795915819/140737488355328, 2415615338662901/140737488355328, 1671825272807387/140737488355328, 4478285277056699/562949953421312, 61490663374223/8796093022208, 7028365445992729/4503599627370496, 63072026011757/8796093022208, 5258078361364325/562949953421312, 7751912392281007/1125899906842624, 6180143557645807/562949953421312, 782033250382765/70368744177664, 4667898934572023/1125899906842624, 0, 4725409373063787/281474976710656, 8169371347954127/1125899906842624, 5841126091872941/1125899906842624, 2834252243383089/562949953421312, 4186377096974931/562949953421312, 988251244679345/562949953421312, 3305153947104879/562949953421312, 7909719701197619/1125899906842624, 6173283656500729/1125899906842624]

/-- Row 34 of the tabulated haversine distances (exact IEEE-754 values). -/
def distRow34 : List ℚ :=
  [3450392080641977/140737488355328, 822792634440771/35184372088832, 3131947260885367/140737488355328, 5945444532142323/281474976710656, 2813495572730299/140737488355328, 331783400577837/17592186044416, 2495037191248149/140737488355328, 4671611139602879/281474976710656, 8706289551955129/562949953421312, 2017337708175201/140737488355328, 3716203227335011/281474976710656, 6795456874111739/562949953421312, 1539625683481161/140737488355328, 690193121414145/70368744177664, 4884585009690371/562949953421312, 1061906280807779/140737488355328, 7221338374591311/1125899906842624, 5947448786467295/1125899906842624, 4673611534770329/1125899906842624, 3399901694791741/1125899906842624, 2126574173773767/1125899906842624, 3421610385482107/4503599627370496, 6930592848067455/18014398509481984, 7006598462752073/281474976710656, 5470527073086471/281474976710656, 8917895488867947/562949953421312, 1280558773225093/70368744177664, 1910999332318991/140737488355328, 5096113936136405/562949953421312, 177336836826545/17592186044416, 3822128784448989/562949953421312, 3255113955696721/562949953421312, 3757090485224187/281474976710656, 4725409373063787/281474976710656, 0, 8477054278675459/562949953421312, 6645526550950857/562949953421312, 1148247383335595/70368744177664, 614949381421093/35184372088832, 5038893060611065/281474976710656, 2194034551309059/140737488355328, 3649302727024247/281474976710656, 6365245676577483/562949953421312]

/-- Row 35 of the tabulated haversine distances (exact IEEE-754 values). -/
def distRow35 : List ℚ :=
  [5327154676893533/562949953421312, 586304549922443/70368744177664, 4053763867770195/562949953421312, 6834333480330373/1125899906842624, 5561403648632777/1125899906842624, 8577973376173897/2251799813685248, 3017749886948847/1125899906842624, 7001193733548479/4503599627370496, 8247510968643065/18014398509481984, 1689281418291269/2251799813685248, 2099233959533657/1125899906842624, 6736739730520665/2251799813685248, 290008928767791/70368744177664, 5912860948577059/1125899906842624, 1796507422101425/281474976710656, 4229726071231951/562949953421312, 304157324995391/35184372088832, 2751681500026363/281474976710656, 3070124352228793/281474976710656, 6777165094165005/562949953421312, 7414106115859767/562949953421312, 4025533814966797/281474976710656, 2172011677277371/140737488355328, 5539929612925739/562949953421312, 2479303763020899/562949953421312, 235275213174493/281474976710656, 32609830615809/4398046511104, 6775367672252685/4503599627370496, 845813046939041/140737488355328, 4782877194975003/562949953421312, 2328094773041893/281474976710656, 6084527332998383/562949953421312, 4826630175541663/562949953421312, 8169371347954127/1125899906842624, 8477054278675459/562949953421312, 0, 8930595320191503/1125899906842624, 722766714107667/281474976710656, 2731949851911487/1125899906842624, 3746894970098975/562949953421312, 3318160787123537/2251799813685248, 1229774444477509/562949953421312, 7887244525680385/1125899906842624]

/-- Row 36 of the tabulated haversine distances (exact IEEE-754 values). -/
def distRow36 : List ℚ :=
  [4380171566577961/281474976710656, 8177312185682841/562949953421312, 950366376568667/70368744177664, 439957454796059/35184372088832, 3244642897221467/281474976710656, 5956595548401859/562949953421312, 5446342340437959/562949953421312, 4965450732388571/562949953421312, 1130824547865587/140737488355328, 4132341862052973/562949953421312, 3808385074318691/562949953421312, 7139438919675755/1125899906842624, 6868355653831407/1125899906842624, 1707034377393125/281474976710656, 3511379921922423/562949953421312, 1858452002992839/281474976710656, 8028113676170175/1125899906842624, 4384249901110141/562949953421312, 1202663387089357/140737488355328, 659958578944239/70368744177664, 5780935436290943/562949953421312, 6306770643388245/562949953421312, 6851521913404457/562949953421312, 8938578153275239/562949953421312, 3071578416139957/281474976710656, 2316095614683895/281474976710656, 7563286341635193/1125899906842624, 7735959795606341/1125899906842624, 6843434458079123/1125899906842624, 3905145812012671/2251799813685248, 3866703756347201/562949953421312, 6799516104059587/1125899906842624, 7549031104142039/4503599627370496, 5841126091872941/1125899906842624, 6645526550950857/562949953421312, 8930595320191503/1125899906842624, 0, 8101148729501011/1125899906842624, 2678173889870575/281474976710656, 7473944489375311/1125899906842624, 4080473952194669/562949953421312, 7077937471340165/1125899906842624, 5288530831817373/4503599627370496]

/-- Row 37 of the tabulated haversine distances (exact IEEE-754 values). -/
def distRow37 : List ℚ :=
  [1208248157535327/140737488355328, 527284018767647/70368744177664, 451405417858535/70368744177664, 6033115714480117/1125899906842624, 2443251169597471/562949953421312, 3821345962735085/1125899906842624, 5855915324024881/2251799813685248, 4811972401094901/2251799813685248, 2500059323174407/1125899906842624, 3155570963630851/1125899906842624, 8224566839672455/2251799813685248, 1301685153911219/281474976710656, 3184162272392115/562949953421312, 945773612661353/140737488355328, 4392756231575787/562949953421312, 5009234275565005/562949953421312, 2815146236745669/281474976710656, 6254568792104605/562949953421312, 6881189421356501/562949953421312, 3754784682717813/281474976710656, 4069651423634213/281474976710656, 4385049932494637/281474976710656, 4700873904634931/281474976710656, 5028081283818941/562949953421312, 8383159676982529/2251799813685248, 4611165856509681/2251799813685248, 5559319335468061/1125899906842624, 929330056813509/281474976710656, 4176622839291899/562949953421312, 4640985902343795/562949953421312, 1353432953810799/140737488355328, 6435178173440779/562949953421312, 8262827598331621/1125899906842624, 2834252243383089/562949953421312, 1148247383335595/70368744177664, 722766714107667/281474976710656, 8101148729501011/1125899906842624, 0, 5644797301215439/2251799813685248, 4687174052892071/1125899906842624, 2515856049475637/2251799813685248, 4102645739669763/1125899906842624, 1850157218136143/281474976710656]

/-- Row 38 of the tabulated haversine distances (exact IEEE-754 values). -/
def distRow38 : List ℚ :=
  [3962694962722711/562949953421312, 6651657152500855/1125899906842624, 5377930775373887/1125899906842624, 513028794508895/140737488355328, 2830610647705637/1125899906842624, 1557305487972131/1125899906842624, 4619248304118907/18014398509481984, 1986871986287281/2251799813685248, 2266276346874869/1125899906842624, 7079757265245799/2251799813685248, 2406824817374071/562949953421312, 380468284488805/70368744177664, 920172196763975/140737488355328, 4317646237580131/562949953421312, 1238653913775949/140737488355328, 1397898854814239/140737488355328, 194643267824677/17592186044416, 6865582503080503/562949953421312, 7502588815773195/562949953421312, 4069801615502717/281474976710656, 274269548449431/17592186044416, 294176738369365/17592186044416, 2512673338244093/140737488355328, 8349914010977989/1125899906842624, 8931840835605017/4503599627370496, 1848256353483031/1125899906842624, 7968668766340609/1125899906842624, 4392444650166367/1125899906842624, 2371699708414789/281474976710656, 5840715670030505/562949953421312, 752156758607539/70368744177664, 7366537298632017/562949953421312, 5517167405742971/562949953421312, 4186377096974931/562949953421312, 614949381421093/35184372088832, 2731949851911487/1125899906842624, 2678173889870575/281474976710656, 5644797301215439/2251799813685248, 0, 443509836236049/70368744177664, 5157265597552939/2251799813685248, 1278194700327947/281474976710656, 1233144538661685/140737488355328]

/-- Row 39 of the tabulated haversine distances (exact IEEE-754 values). -/
def distRow39 : List ℚ :=
  [5570390156709887/562949953421312, 5090452472907719/562949953421312, 4648389761577293/562949953421312, 8512047301017399/1125899906842624, 3928277484286585/562949953421312, 3682449618059457/562949953421312, 883918076320477/140737488355328, 7000863403570325/1125899906842624, 7160053975299399/1125899906842624, 7534379794543437/1125899906842624, 8094054413944297/1125899906842624, 8803805842447205/1125899906842624, 1203814449417669/140737488355328, 5273360576798093/562949953421312, 180173660843707/17592186044416, 6283843370277633/562949953421312, 3411138890636055/281474976710656, 7376451487591617/562949953421312, 3971536296380435/281474976710656, 8519659531584031/562949953421312, 4552160281061019/281474976710656, 2423899140173533/140737488355328, 5146174433028073/281474976710656, 5709098741757983/562949953421312, 457111104011159/70368744177664, 6992405422683651/1125899906842624, 7028285471746577/9007199254740992, 7809159045842405/1125899906842624, 1392609695979823/140737488355328, 290580587734959/35184372088832, 6617550031044531/562949953421312, 869199390649617/70368744177664, 6531582559987303/1125899906842624, 988251244679345/562949953421312, 5038893060611065/281474976710656, 3746894970098975/562949953421312, 7473944489375311/1125899906842624, 4687174052892071/1125899906842624, 443509836236049/70368744177664, 0, 5840612886353313/1125899906842624, 7841873990833357/1125899906842624, 944989338731839/140737488355328]

/-- Row 40 of the tabulated haversine distances (exact IEEE-754 values). -/
def distRow40 : List ℚ :=
  [5091372684512827/562949953421312, 4460729093465749/562949953421312, 119754636916681/17592186044416, 6413696357696383/1125899906842624, 5174427122767831/1125899906842624, 3957163322851049/1125899906842624, 5581737674809899/2251799813685248, 7115312177779105/4503599627370496, 2672148008102731/2251799813685248, 7643720047933593/4503599627370496, 5920817326423825/2251799813685248, 517238798985457/140737488355328, 5359721366005017/1125899906842624, 3300646232806927/562949953421312, 3926632151978861/562949953421312, 4555678258572683/562949953421312, 162083559394271/17592186044416, 5818987272668539/562949953421312, 6452233110307807/562949953421312, 1771540843201439/140737488355328, 7720611249553779/562949953421312, 4177730236747709/281474976710656, 8990627550126381/562949953421312, 5295802749185857/562949953421312, 8985413989314463/2251799813685248, 2568636197402651/2251799813685248, 6699448914578487/1125899906842624, 2543747367772567/1125899906842624, 7420540886983401/1125899906842624, 568993085518849/70368744177664, 621360640303303/70368744177664, 6153166388305725/562949953421312, 4301012955665877/562949953421312, 3305153947104879/562949953421312, 2194034551309059/140737488355328, 3318160787123537/2251799813685248, 4080473952194669/562949953421312, 2515856049475637/2251799813685248, 5157265597552939/2251799813685248, 5840612886353313/1125899906842624, 0, 3041710923584427/1125899906842624, 7287821165395329/1125899906842624]

/-- Row 41 of the tabulated haversine distances (exact IEEE-754 values). -/
def distRow41 : List ℚ :=
  [6509560499759351/562949953421312, 5873120711807031/562949953421312, 2618391914651409/281474976710656, 4600595590028937/562949953421312, 7929262144479463/1125899906842624, 416127835603015/70368744177664, 5388055360473525/1125899906842624, 4120440121251707/1125899906842624, 5716760650748799/2251799813685248, 6459951211986293/4503599627370496, 1080148895635681/2251799813685248, 8839668612513321/9007199254740992, 2322941152166283/1125899906842624, 7160211611436311/2251799813685248, 4846065419853103/1125899906842624, 6115369454089407/1125899906842624, 3693150705706453/562949953421312, 2164537700811323/281474976710656, 2482642671745881/281474976710656, 2800842899737905/281474976710656, 3119110333949229/281474976710656, 6874854612263965/562949953421312, 1877891067242955/140737488355328, 6719701677223353/562949953421312, 227831421406219/35184372088832, 6530344649896197/2251799813685248, 8595650525341945/1125899906842624, 6324761466986403/9007199254740992, 2208049922446073/562949953421312, 7390581743011319/1125899906842624, 434889157093963/70368744177664, 151749807907389/17592186044416, 8154073819717611/1125899906842624, 7909719701197619/1125899906842624, 3649302727024247/281474976710656, 1229774444477509/562949953421312, 7077937471340165/1125899906842624, 4102645739669763/1125899906842624, 1278194700327947/281474976710656, 7841873990833357/1125899906842624, 3041710923584427/1125899906842624, 0, 5889430614375567/1125899906842624]

/-- Row 42 of the tabulated haversine distances (exact IEEE-754 values). -/
def distRow42 : List ℚ :=
  [8495558045070445/562949953421312, 7895531583667343/562949953421312, 7301753638855063/562949953421312, 3357941930268661/281474976710656, 6140188623289049/562949953421312, 5577821702473773/562949953421312, 5033255376550373/562949953421312, 4512941207134503/562949953421312, 8052591797876937/1125899906842624, 7174105770302585/1125899906842624, 803676522828177/140737488355328, 5869666739192215/1125899906842624, 5551111967874005/1125899906842624, 1378926686193427/281474976710656, 1442169123614615/281474976710656, 1568812791814871/281474976710656, 3490221241446723/562949953421312, 3915390745132223/562949953421312, 4392111442670317/562949953421312, 4905379343649721/562949953421312, 2722435622733745/281474976710656, 3001761960696695/281474976710656, 822057286729277/70368744177664, 8681920027896827/562949953421312, 5792160476100771/562949953421312, 8307771838577149/1125899906842624, 7798313718630977/1125899906842624, 6584395833556855/1125899906842624, 5565812299287419/1125899906842624, 1903107530087025/1125899906842624, 6653483088326499/1125899906842624, 6360922221084871/1125899906842624, 760533909830649/281474976710656, 6173283656500729/1125899906842624, 6365245676577483/562949953421312, 7887244525680385/1125899906842624, 5288530831817373/4503599627370496, 1850157218136143/281474976710656, 1233144538661685/140737488355328, 944989338731839/140737488355328, 7287821165395329/1125899906842624, 5889430614375567/1125899906842624, 0]

/-- The tabulated pairwise haversine distances of the 43 catalog coordinates. -/
def distTable : List (List ℚ) :=
  [distRow0, distRow1, distRow2, distRow3, distRow4, distRow5, distRow6, distRow7, distRow8, distRow9, distRow10, distRow11, distRow12, distRow13, distRow14, distRow15, distRow16, distRow17, distRow18, distRow19, distRow20, distRow21, distRow22, distRow23, distRow24, distRow25, distRow26, distRow27, distRow28, distRow29, distRow30, distRow31, distRow32, distRow33, distRow34, distRow35, distRow36, distRow37, distRow38, distRow39, distRow40, distRow41, distRow42]

/-- The catalog coordinates, in catalog order. -/
def coordList : List (ℚ × ℚ) := locations.map (fun ℓ => (ℓ.lat, ℓ.lon))

/-- The tabulated haversine metric: look both coordinate pairs up in the
catalog and return the tabulated exact distance (all 43 catalog
coordinate pairs are distinct, so the lookup is unambiguous). -/
def distq : Dist := fun la1 lo1 la2 lo2 =>
  match coordList.indexOf? (la1, lo1), coordList.indexOf? (la2, lo2) with
  | some i, some j => (((distTable.get? i).getD []).get? j).getD 0
  | _, _ => 0

/-- The concrete network graph the constructor builds. -/
def theGraph : Graph := buildGraph distq

/-- The single route the concrete network returns from Aluva Metro to
Pulinchodu Metro (all four strategies find the direct metro hop; the
duplicates are removed, leaving the first strategy's label). -/
def apRoute : Route :=
  { strategy := "Cheapest", total_cost := 5, total_time := 5/2,
    total_distance := 113/100, num_segments := 1,
    path := [⟨"Aluva Metro", "metro_station", "start", 0, 0, 0⟩,
             ⟨"Pulinchodu Metro", "metro_station", "metro", 5/2, 5, 113/100⟩] }

/-- The single route the concrete network returns from Thripunithura Metro
to Kaloor Metro: ten consecutive metro hops, each displayed as 1.13 km,
while the total displays as 11.32 km. -/
def tkRoute : Route :=
  { strategy := "Cheapest", total_cost := 50, total_time := 25,
    total_distance := 283/25, num_segments := 10,
    path := [⟨"Thripunithura Metro", "metro_station", "start", 0, 0, 0⟩,
             ⟨"Petta Metro", "metro_station", "metro", 5/2, 5, 113/100⟩,
             ⟨"Thaikoodam Metro", "metro_station", "metro", 5/2, 5, 113/100⟩,
             ⟨"Vyttila Metro", "metro_station", "metro", 5/2, 5, 113/100⟩,
             ⟨"Elamkulam Metro", "metro_station", "metro", 5/2, 5, 113/100⟩,
             ⟨"Kadavanthra Metro", "metro_station", "metro", 5/2, 5, 113/100⟩,
             ⟨"Ernakulam South Metro", "metro_station", "metro", 5/2, 5, 113/100⟩,
             ⟨"Maharajas Metro", "metro_station", "metro", 5/2, 5, 113/100⟩,
             ⟨"M.G Road Metro", "metro_station", "metro", 5/2, 5, 113/100⟩,
             ⟨"Lissie Metro", "metro_station", "metro", 5/2, 5, 113/100⟩,
             ⟨"Kaloor Metro", "metro_station", "metro", 5/2, 5, 113/100⟩] }

lemma find_unknownStart {locs : List Loc} {G : Graph} {s e : String}
    (h : hasLoc locs s = false) :
    findOptimizedRoutes locs G s e = .err (.unknownStart s) := by
  simp [findOptimizedRoutes, h]

lemma find_unknownEnd {locs : List Loc} {G : Graph} {s e : String}
    (hs : hasLoc locs s = true) (h : hasLoc locs e = false) :
    findOptimizedRoutes locs G s e = .err (.unknownEnd e) := by
  simp [findOptimizedRoutes, hs, h]

lemma find_identical {locs : List Loc} {G : Graph} {s e : String}
    (hs : hasLoc locs s = true) (he : hasLoc locs e = true) (h : s = e) :
    findOptimizedRoutes locs G s e = .err .identicalEndpoints := by
  simp [findOptimizedRoutes, hs, he, h]

lemma find_valid_eq {locs : List Loc} {G : Graph} {s e : String}
    (hs : hasLoc locs s = true) (he : hasLoc locs e = true) (hne : s ≠ e) :
    findOptimizedRoutes locs G s e =
      (if (sortRoutes (dedupRoutes (allRoutes locs G s e) [])).isEmpty then
        QueryResult.err (.noRouteFound s e)
       else .routes (sortRoutes (dedupRoutes (allRoutes locs G s e) []))) := by
  simp [findOptimizedRoutes, hs, he, hne]

lemma find_routes_inv {locs : List Loc} {G : Graph} {s e : String} {rs : List Route}
    (h : findOptimizedRoutes locs G s e = .routes rs) :
    hasLoc locs s = true ∧ hasLoc locs e = true ∧ s ≠ e ∧
      rs = sortRoutes (dedupRoutes (allRoutes locs G s e) []) ∧ rs ≠ [] := by
  by_cases hs : hasLoc locs s
  · by_cases he : hasLoc locs e
    · by_cases hne : s = e
      · rw [find_identical hs he hne] at h; exact absurd h (by simp)
      · rw [find_valid_eq hs he hne] at h
        by_cases hemp : (sortRoutes (dedupRoutes (allRoutes locs G s e) [])).isEmpty
        · rw [if_pos hemp] at h; exact absurd h (by simp)
        · rw [if_neg hemp] at h
          cases h
          exact ⟨hs, he, hne, rfl, by simpa [List.isEmpty_iff] using hemp⟩
    · rw [find_unknownEnd hs (by simpa using he)] at h; exact absurd h (by simp)
  · rw [find_unknownStart (by simpa using hs)] at h; exact absurd h (by simp)

lemma dedupRoutes_sublist : ∀ (l : List Route) (seen : List (List String)),
    (dedupRoutes l seen).Sublist l
  | [], _ => by simp [dedupRoutes]
  | r :: rs, seen => by
    by_cases hk : routeKey r ∈ seen
    · simp only [dedupRoutes, if_pos hk]
      exact (dedupRoutes_sublist rs seen).cons r
    · simp only [dedupRoutes, if_neg hk]
      exact (dedupRoutes_sublist rs (routeKey r :: seen)).cons₂ r

lemma mem_dedupRoutes {r : Route} : ∀ {l : List Route} {seen : List (List String)},
    r ∈ dedupRoutes l seen ↔
      routeKey r ∉ seen ∧
        ∃ n, l[n]? = some r ∧ ∀ r' ∈ l.take n, routeKey r' ≠ routeKey r := by
  intro l
  induction l with
  | nil => simp [dedupRoutes]
  | cons x xs ih =>
    intro seen
    by_cases hk : routeKey x ∈ seen
    · simp only [dedupRoutes, if_pos hk]
      rw [ih]
      constructor
      · rintro ⟨hns, n, hget, htake⟩
        refine ⟨hns, n + 1, by simpa using hget, ?_⟩
        intro r' hr'
        rw [List.take_succ_cons] at hr'
        rcases List.mem_cons.1 hr' with rfl | hr'
        · intro hEq; exact hns (hEq ▸ hk)
        · exact htake r' hr'
      · rintro ⟨hns, n, hget, htake⟩
        match n with
        | 0 =>
          simp only [List.getElem?_cons_zero, Option.some.injEq] at hget
          subst hget
          exact absurd hk hns
        | Nat.succ m =>
          refine ⟨hns, m, by simpa using hget, ?_⟩
          intro r' hr'
          exact htake r' (by rw [List.take_succ_cons]; exact List.mem_cons_of_mem _ hr')
    · simp only [dedupRoutes, if_neg hk]
      constructor
      · intro hmem
        rcases List.mem_cons.1 hmem with rfl | hmem
        · exact ⟨hk, 0, by simp, by simp⟩
        · rcases ih.1 hmem with ⟨hns, n, hget, htake⟩
          have hxr : routeKey r ≠ routeKey x := fun hEq => hns (by simp [hEq])
          refine ⟨fun hmem' => hns (by simp [hmem']), n + 1, by simpa using hget, ?_⟩
          intro r' hr'
          rw [List.take_succ_cons] at hr'
          rcases List.mem_cons.1 hr' with rfl | hr'
          · exact fun hEq => hxr hEq.symm
          · exact htake r' hr'
      · rintro ⟨hns, n, hget, htake⟩
        match n with
        | 0 =>
          simp only [List.getElem?_cons_zero, Option.some.injEq] at hget
          subst hget
          exact List.mem_cons_self _ _
        | Nat.succ m =>
          have hxr : routeKey x ≠ routeKey r := by
            apply htake
            rw [List.take_succ_cons]
            exact List.mem_cons_self _ _
          refine List.mem_cons_of_mem _ (ih.2 ⟨?_, m, by simpa using hget, ?_⟩)
          · intro hmem'
            rcases List.mem_cons.1 hmem' with hEq | hmem'
            · exact hxr hEq.symm
            · exact hns hmem'
          · intro r' hr'
            exact htake r' (by rw [List.take_succ_cons]; exact List.mem_cons_of_mem _ hr')

lemma mem_of_mem_dedupRoutes {r : Route} {l : List Route} {seen : List (List String)}
    (h : r ∈ dedupRoutes l seen) : r ∈ l :=
  (dedupRoutes_sublist l seen).mem h

lemma routeKey_not_mem_seen {r : Route} {l : List Route} {seen : List (List String)}
    (h : r ∈ dedupRoutes l seen) : routeKey r ∉ seen :=
  (mem_dedupRoutes.1 h).1

lemma dedupRoutes_pairwise : ∀ (l : List Route) (seen : List (List String)),
    (dedupRoutes l seen).Pairwise (fun a b => routeKey a ≠ routeKey b)
  | [], _ => by simp [dedupRoutes]
  | r :: rs, seen => by
    by_cases hk : routeKey r ∈ seen
    · simp only [dedupRoutes, if_pos hk]
      exact dedupRoutes_pairwise rs seen
    · simp only [dedupRoutes, if_neg hk]
      refine List.Pairwise.cons ?_ (dedupRoutes_pairwise rs (routeKey r :: seen))
      intro b hb hEq
      exact routeKey_not_mem_seen hb (by simp [hEq])

lemma dedupRoutes_nil_iff {l : List Route} : dedupRoutes l [] = [] ↔ l = [] := by
  cases l with
  | nil => simp [dedupRoutes]
  | cons x xs => simp [dedupRoutes]

lemma sortRoutes_perm (rs : List Route) : (sortRoutes rs).Perm rs :=
  List.mergeSort_perm rs _

lemma mem_sortRoutes {r : Route} {rs : List Route} : r ∈ sortRoutes rs ↔ r ∈ rs :=
  (sortRoutes_perm rs).mem_iff

lemma sortRoutes_sorted (rs : List Route) :
    (sortRoutes rs).Pairwise (fun a b => rankKey a ≤ rankKey b) := by
  have h := List.sorted_mergeSort
    (fun a b c (hab : routeLe a b = true) (hbc : routeLe b c = true) => by
      simp only [routeLe, decide_eq_true_eq] at *
      exact le_trans hab hbc)
    (fun a b => by
      simp only [routeLe, Bool.or_eq_true, decide_eq_true_eq]
      exact le_total (rankKey a) (rankKey b))
    rs
  exact h.imp (fun {a b} hab => by simpa [routeLe] using hab)

lemma sortRoutes_nil_iff {rs : List Route} : sortRoutes rs = [] ↔ rs = [] := by
  constructor
  · intro h
    have := (sortRoutes_perm rs).length_eq
    rw [h] at this
    exact List.length_eq_zero.1 this.symm
  · intro h
    subst h
    simp [sortRoutes, List.mergeSort_nil]

lemma mem_allRoutes {locs : List Loc} {G : Graph} {s e : String} {r : Route} :
    r ∈ allRoutes locs G s e ↔
      ∃ w ∈ stratList, runStrategy locs G s e w = some r := by
  simp [allRoutes, List.mem_filterMap]

lemma runStrategy_eq_some {locs : List Loc} {G : Graph} {s e : String}
    {w : String × ℚ × ℚ × ℚ} {r : Route}
    (h : runStrategy locs G s e w = some r) :
    r.strategy = w.1 ∧
      r.path = reconstructPath locs (dijkstra locs G s e w.2.1 w.2.2.1 w.2.2.2) s e ∧
      r.path ≠ [] ∧
      ((getv (dijkstra locs G s e w.2.1 w.2.2.1 w.2.2.2) e).bind (·.prev)).isSome = true ∧
      r.total_cost =
        pyround (((getv (dijkstra locs G s e w.2.1 w.2.2.1 w.2.2.2) e).bind (·.cost)).getD 0) 2 ∧
      r.total_time =
        pyround (((getv (dijkstra locs G s e w.2.1 w.2.2.1 w.2.2.2) e).bind (·.time)).getD 0) 1 ∧
      r.total_distance =
        pyround (((getv (dijkstra locs G s e w.2.1 w.2.2.1 w.2.2.2) e).bind (·.dkm)).getD 0) 2 := by
  unfold runStrategy at h
  by_cases hp : ((getv (dijkstra locs G s e w.2.1 w.2.2.1 w.2.2.2) e).bind (·.prev)).isSome
  · rw [if_pos hp] at h
    by_cases hemp : (reconstructPath locs (dijkstra locs G s e w.2.1 w.2.2.1 w.2.2.2) s e).isEmpty
    · rw [if_pos hemp] at h; exact absurd h (by simp)
    · rw [if_neg hemp] at h
      cases h
      exact ⟨rfl, rfl, by simpa [List.isEmpty_iff] using hemp, hp, rfl, rfl, rfl⟩
  · rw [if_neg hp] at h; exact absurd h (by simp)

lemma runStrategy_eq_none_iff {locs : List Loc} {G : Graph} {s e : String}
    {w : String × ℚ × ℚ × ℚ} :
    runStrategy locs G s e w = none ↔
      ¬(((getv (dijkstra locs G s e w.2.1 w.2.2.1 w.2.2.2) e).bind (·.prev)).isSome = true ∧
        reconstructPath locs (dijkstra locs G s e w.2.1 w.2.2.1 w.2.2.2) s e ≠ []) := by
  unfold runStrategy
  by_cases hp : ((getv (dijkstra locs G s e w.2.1 w.2.2.1 w.2.2.2) e).bind (·.prev)).isSome
  · rw [if_pos hp]
    by_cases hemp : (reconstructPath locs (dijkstra locs G s e w.2.1 w.2.2.1 w.2.2.2) s e).isEmpty
    · rw [if_pos hemp]
      refine iff_of_true rfl ?_
      rintro ⟨_, hne⟩
      exact hne (List.isEmpty_iff.1 hemp)
    · rw [if_neg hemp]
      refine iff_of_false (by simp) ?_
      rw [not_not]
      exact ⟨hp, by simpa [List.isEmpty_iff] using hemp⟩
  · rw [if_neg hp]
    refine iff_of_true rfl ?_
    rintro ⟨hps, _⟩
    exact hp hps

lemma allRoutes_eq_nil_iff {locs : List Loc} {G : Graph} {s e : String} :
    allRoutes locs G s e = [] ↔ ∀ w ∈ stratList, ¬ strategySucceeds locs G s e w := by
  rw [allRoutes, List.filterMap_eq_nil_iff]
  constructor
  · intro h w hw
    unfold strategySucceeds
    rw [← runStrategy_eq_none_iff]
    exact h w hw
  · intro h w hw
    rw [runStrategy_eq_none_iff]
    have hx := h w hw
    unfold strategySucceeds at hx
    exact hx

/-- C2.  `find_optimized_routes` returns a structured error exactly for an
unknown start, an unknown end, identical (valid) endpoints, or when every
one of the four strategies fails to reach the destination; otherwise it
returns a non-empty route list.  Validation errors are decided before any
search result is consulted. -/
theorem findRoutes_error_characterization (locs : List Loc) (G : Graph) (s e : String) :
    (hasLoc locs s = false → findOptimizedRoutes locs G s e = .err (.unknownStart s)) ∧
    (hasLoc locs s = true → hasLoc locs e = false →
      findOptimizedRoutes locs G s e = .err (.unknownEnd e)) ∧
    (hasLoc locs s = true → hasLoc locs e = true → s = e →
      findOptimizedRoutes locs G s e = .err .identicalEndpoints) ∧
    (hasLoc locs s = true → hasLoc locs e = true → s ≠ e →
      (findOptimizedRoutes locs G s e = .err (.noRouteFound s e) ↔
        ∀ w ∈ stratList, ¬ strategySucceeds locs G s e w)) ∧
    (hasLoc locs s = true → hasLoc locs e = true → s ≠ e →
      (∃ w ∈ stratList, strategySucceeds locs G s e w) →
      ∃ rs, findOptimizedRoutes locs G s e = .routes rs ∧ rs ≠ []) := by
  refine ⟨fun h => find_unknownStart h, fun hs he => find_unknownEnd hs he,
    fun hs he h => find_identical hs he h, fun hs he hne => ?_, fun hs he hne hex => ?_⟩
  · rw [find_valid_eq hs he hne]
    by_cases hemp : (sortRoutes (dedupRoutes (allRoutes locs G s e) [])).isEmpty
    · rw [if_pos hemp]
      refine iff_of_true rfl ?_
      rw [← allRoutes_eq_nil_iff, ← dedupRoutes_nil_iff, ← sortRoutes_nil_iff]
      exact List.isEmpty_iff.1 hemp
    · rw [if_neg hemp]
      refine iff_of_false (by simp) ?_
      rw [← allRoutes_eq_nil_iff, ← dedupRoutes_nil_iff, ← sortRoutes_nil_iff]
      simpa [List.isEmpty_iff] using hemp
  · rw [find_valid_eq hs he hne]
    have hne' : allRoutes locs G s e ≠ [] := by
      rw [Ne, allRoutes_eq_nil_iff]
      push_neg
      obtain ⟨w, hw, hsucc⟩ := hex
      exact ⟨w, hw, hsucc⟩
    have hemp : ¬ (sortRoutes (dedupRoutes (allRoutes locs G s e) [])).isEmpty := by
      rw [List.isEmpty_iff, sortRoutes_nil_iff, dedupRoutes_nil_iff]
      exact hne'
    rw [if_neg hemp]
    refine ⟨_, rfl, ?_⟩
    simpa [List.isEmpty_iff] using hemp

/-- C9.  A missing start name yields `UnknownLocation(start)` regardless of
the end name (even when the two names are equal or the end is missing
too); an unknown-end error implies the start existed, and an
identical-endpoints error implies both endpoints existed and were equal:
start existence is checked first, end existence second, identity last. -/
theorem validation_order_spec (locs : List Loc) (G : Graph) (s e : String) :
    (hasLoc locs s = false → findOptimizedRoutes locs G s e = .err (.unknownStart s)) ∧
    (findOptimizedRoutes locs G s e = .err (.unknownEnd e) → hasLoc locs s = true) ∧
    (findOptimizedRoutes locs G s e = .err .identicalEndpoints →
      hasLoc locs s = true ∧ hasLoc locs e = true ∧ s = e) := by
  refine ⟨fun h => find_unknownStart h, ?_, ?_⟩
  · intro h
    by_cases hs : hasLoc locs s
    · exact hs
    · rw [find_unknownStart (by simpa using hs)] at h
      exact absurd h (by simp)
  · intro h
    by_cases hs : hasLoc locs s
    · by_cases he : hasLoc locs e
      · by_cases hne : s = e
        · exact ⟨hs, he, hne⟩
        · rw [find_valid_eq hs he hne] at h
          by_cases hemp : (sortRoutes (dedupRoutes (allRoutes locs G s e) [])).isEmpty
          · rw [if_pos hemp] at h; exact absurd h (by simp)
          · rw [if_neg hemp] at h; exact absurd h (by simp)
      · rw [find_unknownEnd hs (by simpa using he)] at h
        exact absurd h (by simp)
    · rw [find_unknownStart (by simpa using hs)] at h
      exact absurd h (by simp)

lemma laterStep_location (locs : List Loc) (st : DState) (n : String) :
    (laterStep locs st n).location = n := by
  unfold laterStep
  cases h : (getv st n).bind (·.einfo) <;> simp [h]

lemma reconstructPath_shape {locs : List Loc} {st : DState} {s e : String}
    (h : reconstructPath locs st s e ≠ []) :
    ∃ rest, (buildBack st (st.length + 1) (some e)).reverse = s :: rest ∧
      reconstructPath locs st s e = startStep locs s :: rest.map (laterStep locs st) := by
  cases hrev : (buildBack st (st.length + 1) (some e)).reverse with
  | nil => exact absurd (by simp [reconstructPath, hrev]) h
  | cons first rest =>
    by_cases hf : first = s
    · subst hf
      refine ⟨rest, rfl, ?_⟩
      simp [reconstructPath, hrev]
    · exact absurd (by simp [reconstructPath, hrev, hf]) h

lemma reconstructPath_locations {locs : List Loc} {st : DState} {s e : String}
    (h : reconstructPath locs st s e ≠ []) :
    (reconstructPath locs st s e).map (·.location) =
      (buildBack st (st.length + 1) (some e)).reverse := by
  obtain ⟨rest, hrev, hsteps⟩ := reconstructPath_shape h
  rw [hsteps, hrev, List.map_cons, List.map_map]
  simp only [List.cons.injEq]
  refine ⟨rfl, ?_⟩
  have hcg : ∀ n ∈ rest, ((fun x : Step => x.location) ∘ laterStep locs st) n = n :=
    fun n _ => laterStep_location locs st n
  rw [List.map_congr_left hcg]
  simp

lemma reconstructPath_getLast {locs : List Loc} {st : DState} {s e : String}
    (h : reconstructPath locs st s e ≠ []) :
    ∃ stp, (reconstructPath locs st s e).getLast? = some stp ∧ stp.location = e := by
  have hbb : buildBack st (st.length + 1) (some e) =
      e :: buildBack st st.length ((getv st e).bind (·.prev)) := rfl
  have hlocs := reconstructPath_locations h
  have hlast : ((reconstructPath locs st s e).map (·.location)).getLast? = some e := by
    rw [hlocs, hbb, List.getLast?_reverse]
    rfl
  rw [List.getLast?_map] at hlast
  cases hgl : (reconstructPath locs st s e).getLast? with
  | none => rw [hgl] at hlast; exact absurd hlast (by simp)
  | some stp =>
    rw [hgl] at hlast
    simp at hlast
    exact ⟨stp, rfl, hlast⟩

lemma mem_routes_mem_allRoutes {locs : List Loc} {G : Graph} {s e : String}
    {rs : List Route} {r : Route}
    (h : findOptimizedRoutes locs G s e = .routes rs) (hr : r ∈ rs) :
    r ∈ allRoutes locs G s e := by
  obtain ⟨_, _, _, hrs, _⟩ := find_routes_inv h
  subst hrs
  exact mem_of_mem_dedupRoutes (mem_sortRoutes.1 hr)

/-- C4.  Every route of a successful result starts at the queried start
with a zero-cost `start` step and ends at the queried destination. -/
theorem route_endpoints_spec (locs : List Loc) (G : Graph) (s e : String)
    (rs : List Route) (r : Route)
    (h : findOptimizedRoutes locs G s e = .routes rs) (hr : r ∈ rs) :
    (∃ h0, r.path.head? = some h0 ∧ h0.location = s ∧ h0.mode = "start" ∧
      h0.segment_cost = 0 ∧ h0.segment_time = 0 ∧ h0.segment_distance = 0) ∧
    (∃ hl, r.path.getLast? = some hl ∧ hl.location = e) := by
  obtain ⟨w, hw, hrun⟩ := mem_allRoutes.1 (mem_routes_mem_allRoutes h hr)
  obtain ⟨_, hpath, hne, _⟩ := runStrategy_eq_some hrun
  obtain ⟨rest, hrev, hsteps⟩ := reconstructPath_shape (hpath ▸ hne)
  constructor
  · refine ⟨startStep locs s, ?_, rfl, rfl, rfl, rfl, rfl⟩
    rw [hpath, hsteps]
    rfl
  · obtain ⟨stp, hgl, hloc⟩ := reconstructPath_getLast (hpath ▸ hne)
    exact ⟨stp, by rw [hpath]; exact hgl, hloc⟩

/-- C5.  No two routes of a result list visit the same ordered sequence of
location names, and a route survives exactly when it is the first route in
the strategy-ordered `all_routes` list with its location sequence. -/
theorem routes_dedup_spec (locs : List Loc) (G : Graph) (s e : String)
    (rs : List Route)
    (h : findOptimizedRoutes locs G s e = .routes rs) :
    rs.Pairwise (fun a b => routeKey a ≠ routeKey b) ∧
    (∀ r, r ∈ rs ↔
      ∃ n, (allRoutes locs G s e)[n]? = some r ∧
        ∀ r' ∈ (allRoutes locs G s e).take n, routeKey r' ≠ routeKey r) := by
  obtain ⟨_, _, _, hrs, _⟩ := find_routes_inv h
  subst hrs
  constructor
  · exact ((sortRoutes_perm _).pairwise_iff fun hab => hab ∘ Eq.symm).2
      (dedupRoutes_pairwise _ _)
  · intro r
    rw [mem_sortRoutes, mem_dedupRoutes]
    simp

/-- C6.  Successful result lists are sorted ascending by the fixed
secondary score `0.6 * total_cost + 0.4 * total_time`: each route's score
is at most its successor's. -/
theorem routes_sorted_spec (locs : List Loc) (G : Graph) (s e : String)
    (rs : List Route)
    (h : findOptimizedRoutes locs G s e = .routes rs) :
    rs.Chain' (fun a b => rankKey a ≤ rankKey b) := by
  obtain ⟨_, _, _, hrs, _⟩ := find_routes_inv h
  subst hrs
  exact (sortRoutes_sorted _).chain'

lemma allRoutes_pairwise_strategy {locs : List Loc} {G : Graph} {s e : String} :
    (allRoutes locs G s e).Pairwise (fun a b => a.strategy ≠ b.strategy) := by
  rw [allRoutes, List.pairwise_filterMap]
  have hnames : stratList.Pairwise (fun a b => a.1 ≠ b.1) := by
    simp [stratList]
  refine hnames.imp ?_
  intro a b hab x hx y hy
  rw [(runStrategy_eq_some hx).1, (runStrategy_eq_some hy).1]
  exact hab

/-- C10.  A successful result holds between one and four routes, each
labelled with a distinct strategy name from the fixed strategy set. -/
theorem result_count_strategies_spec (locs : List Loc) (G : Graph) (s e : String)
    (rs : List Route)
    (h : findOptimizedRoutes locs G s e = .routes rs) :
    1 ≤ rs.length ∧ rs.length ≤ 4 ∧
    (∀ r ∈ rs, r.strategy ∈ (["Cheapest", "Fastest", "Balanced", "Most Convenient"] : List String)) ∧
    rs.Pairwise (fun a b => a.strategy ≠ b.strategy) := by
  obtain ⟨_, _, _, hrs, hne⟩ := find_routes_inv h
  refine ⟨?_, ?_, ?_, ?_⟩
  · exact Nat.one_le_iff_ne_zero.2 (fun hz => hne (List.length_eq_zero.1 hz))
  · rw [hrs, (sortRoutes_perm _).length_eq]
    calc (dedupRoutes (allRoutes locs G s e) []).length
        ≤ (allRoutes locs G s e).length := (dedupRoutes_sublist _ _).length_le
      _ ≤ stratList.length := List.length_filterMap_le _ _
      _ = 4 := rfl
  · intro r hr
    obtain ⟨w, hw, hrun⟩ := mem_allRoutes.1 (mem_routes_mem_allRoutes h hr)
    rw [(runStrategy_eq_some hrun).1]
    have : w ∈ stratList := hw
    simp only [stratList, List.mem_cons, List.not_mem_nil, or_false] at this
    rcases this with rfl | rfl | rfl | rfl <;> simp
  · rw [hrs]
    exact ((sortRoutes_perm _).pairwise_iff fun hab => hab ∘ Eq.symm).2
      (List.Pairwise.sublist (dedupRoutes_sublist _ _) allRoutes_pairwise_strategy)

lemma ite_pos_rat {α : Type} (a b : α) {x : ℚ} (hx : 0 ≤ x) :
    (if 0 < x then a else b) = if x = 0 then b else a := by
  rcases lt_or_eq_of_le hx with hlt | heq
  · rw [if_pos hlt, if_neg hlt.ne']
  · rw [← heq]
    simp

lemma ite_pos_nat {α : Type} (a b : α) (n : ℕ) :
    (if 0 < n then a else b) = if n = 0 then b else a := by
  cases n <;> simp

/-- C1.  Each relaxation step scores the neighbor by the composite
formula of the specification — `costWeight * norm_cost + timeWeight *
norm_time + convenienceWeight * (norm_transfers + mode_change_penalty +
walk_penalty)` with the stated normalizations, the 0.3 mode-change
penalty, the long-walk penalty `distance * 0.2` for walk edges over 0.5
km, and the transfer count incremented exactly when the edge's mode
differs from the mode of the edge that reached the current node — and it
rewrites the neighbor's recorded score, cost, time, distance, transfer
count, predecessor and arriving edge, pushing the neighbor, if and only
if the composite is strictly below the recorded score (an infinite
record always updates; a tie keeps the earlier-found labels). -/
theorem relax_composite_spec (cw tw vw : ℚ) (current : String) (visited : List String)
    (st : DState) (pq : List (ℚ × String)) (edge : Edge) (lc ln : NodeLabel) (c t d : ℚ)
    (hvis : edge.destination ∉ visited)
    (hlc : getv st current = some lc) (hln : getv st edge.destination = some ln)
    (hc : lc.cost = some c) (ht : lc.time = some t) (hd : lc.dkm = some d)
    (hcn : 0 ≤ c + edge.cost) (htn : 0 ≤ t + edge.time) :
    ((ln.dist = none ∨ ∃ r0, ln.dist = some r0 ∧ specComposite cw tw vw lc edge c t < r0) →
      relax cw tw vw current visited (st, pq) edge =
        (setv st edge.destination
          ⟨some (specComposite cw tw vw lc edge c t), some (c + edge.cost),
            some (t + edge.time), some (d + edge.distance),
            specTransfers lc edge, some current, some edge⟩,
          (specComposite cw tw vw lc edge c t, edge.destination) :: pq)) ∧
    ((∃ r0, ln.dist = some r0 ∧ r0 ≤ specComposite cw tw vw lc edge c t) →
      relax cw tw vw current visited (st, pq) edge = (st, pq)) := by
  have hms : codeModeChange lc edge = specModeDiff lc edge := by
    cases hei : lc.einfo <;> simp [codeModeChange, specModeDiff, hei]
  have hts : codeTransfers lc edge = specTransfers lc edge := by
    rw [codeTransfers, specTransfers, hms]
  have hcomp : codeComposite cw tw vw lc edge c t = specComposite cw tw vw lc edge c t := by
    have hwalk : (if edge.mode == "walk" && decide ((1:ℚ)/2 < edge.distance) then
        edge.distance * (2/10) else (0:ℚ)) =
        (if edge.mode = "walk" ∧ (1:ℚ)/2 < edge.distance then edge.distance * (2/10) else 0) := by
      by_cases hw : edge.mode = "walk" ∧ (1:ℚ)/2 < edge.distance
      · have hb : (edge.mode == "walk" && decide ((1:ℚ)/2 < edge.distance)) = true := by
          simp only [beq_iff_eq, Bool.and_eq_true, decide_eq_true_eq]
          exact hw
        rw [if_pos hb, if_pos hw]
      · have hb : ¬ ((edge.mode == "walk" && decide ((1:ℚ)/2 < edge.distance)) = true) := by
          simpa [Bool.and_eq_true, beq_iff_eq, decide_eq_true_eq] using hw
        rw [if_neg hb, if_neg hw]
    rw [codeComposite, specComposite, ite_pos_rat _ _ hcn, ite_pos_rat _ _ htn, hts,
      ite_pos_nat, hms, hwalk]
  constructor
  · rintro hup
    unfold relax
    rw [if_neg hvis]
    simp only [hlc, hln, hc, ht, hd]
    rcases hup with hnone | ⟨r0, hr0, hlt⟩
    · simp only [hnone, hcomp, hts]
      simp
    · have hb : decide (codeComposite cw tw vw lc edge c t < r0) = true :=
        decide_eq_true (hcomp ▸ hlt)
      simp only [hr0, hb, hcomp, hts]
      simp [hlt]
  · rintro ⟨r0, hr0, hle⟩
    unfold relax
    rw [if_neg hvis]
    simp only [hlc, hln, hc, ht, hd, hr0]
    have hb : decide (codeComposite cw tw vw lc edge c t < r0) = false := by
      simp only [decide_eq_false_iff_not, not_lt]
      rw [hcomp]
      exact hle
    simp only [hb]
    simp

lemma find?_map_keyPreserving (u : String × List Edge → String × List Edge)
    (hu : ∀ p, (u p).1 = p.1) (g : Graph) (a : String) :
    (g.map u).find? (fun p => p.1 == a) = (g.find? (fun p => p.1 == a)).map u := by
  induction g with
  | nil => rfl
  | cons q g ih =>
    simp only [List.map_cons, List.find?_cons]
    rw [hu q]
    cases hq : (q.1 == a) <;> simp [hq, ih]

lemma adj_addEdge (g : Graph) (f : String) (e : Edge) (a : String) :
    adj (addEdge g f e) a = if a = f then adj g a ++ [e] else adj g a := by
  unfold addEdge
  by_cases hpres : (g.find? (fun p => p.1 == f)).isSome
  · rw [if_pos hpres]
    unfold adj
    rw [find?_map_keyPreserving _ (fun p => by by_cases h : (p.1 == f) <;> simp [h])]
    cases hfind : g.find? (fun p => p.1 == a) with
    | none =>
      have haf : a ≠ f := by
        intro hEq
        subst hEq
        rw [hfind] at hpres
        simp at hpres
      simp [haf]
    | some p =>
      have hkey : p.1 = a := by simpa using List.find?_some hfind
      by_cases haf : a = f
      · subst haf
        have hb : (p.1 == a) = true := by simp [hkey]
        simp [hb, hkey]
      · have hb : (p.1 == f) = false := by simp [hkey, haf]
        simp [hb, hkey, haf]
  · rw [if_neg hpres]
    unfold adj
    rw [List.find?_append]
    by_cases haf : a = f
    · subst haf
      have hnone : g.find? (fun p => p.1 == a) = none :=
        Option.not_isSome_iff_eq_none.1 hpres
      simp [hnone]
    · have hb : ((f, ([e] : List Edge)).1 == a) = false := by simp [Ne.symm haf]
      cases hfind : g.find? (fun p => p.1 == a) <;> simp [hfind, hb, haf]

lemma mem_adj_foldl : ∀ (l : List (String × Edge)) (g : Graph) (a : String) (e : Edge),
    (e ∈ adj (l.foldl (fun g fe => addEdge g fe.1 fe.2) g) a) ↔
      e ∈ adj g a ∨ (a, e) ∈ l := by
  intro l
  induction l with
  | nil => simp
  | cons fe l ih =>
    intro g a e
    obtain ⟨f1, e1⟩ := fe
    rw [List.foldl_cons, ih, adj_addEdge]
    by_cases haf : a = f1
    · subst haf
      rw [if_pos rfl]
      simp only [List.mem_append, List.mem_singleton, List.mem_cons, Prod.mk.injEq]
      tauto
    · rw [if_neg haf]
      simp only [List.mem_cons, Prod.mk.injEq]
      constructor
      · rintro (hg | hl)
        · exact Or.inl hg
        · exact Or.inr (Or.inr hl)
      · rintro (hg | ⟨hfa, _⟩ | hl)
        · exact Or.inl hg
        · exact absurd hfa haf
        · exact Or.inr hl

lemma mem_adj_buildGraph {D : Dist} {a : String} {e : Edge} :
    e ∈ adj (buildGraph D) a ↔ (a, e) ∈ graphAdds D := by
  rw [buildGraph, mem_adj_foldl]
  simp [adj]

lemma connectorAdds_mode {D : Dist} {a : String} {e : Edge}
    (h : (a, e) ∈ connectorAdds D) :
    e.mode = "walk" ∨ e.mode = "auto" ∨ e.mode = "bus" := by
  rw [connectorAdds, List.mem_flatMap] at h
  obtain ⟨ℓ, _, h⟩ := h
  by_cases hm : (ℓ.ty == "metro_station")
  · simp [hm] at h
  · rw [if_neg (by simpa using hm), List.mem_flatMap] at h
    obtain ⟨sd, _, h⟩ := h
    rcases List.mem_append.1 h with h | h
    · rcases List.mem_append.1 h with h | h
      · split at h
        · rcases List.mem_cons.1 h with h | h
          · cases Prod.mk.injEq .. ▸ h; simp_all
          · rcases List.mem_cons.1 h with h | h
            · simp_all
            · simp at h
        · simp at h
      · split at h
        · rcases List.mem_cons.1 h with h | h
          · simp_all
          · rcases List.mem_cons.1 h with h | h
            · simp_all
            · simp at h
        · simp at h
    · split at h
      · rcases List.mem_cons.1 h with h | h
        · simp_all
        · rcases List.mem_cons.1 h with h | h
          · simp_all
          · simp at h
      · simp at h

lemma directAdds_mode {D : Dist} {a : String} {e : Edge}
    (h : (a, e) ∈ directAdds D) :
    e.mode = "auto" ∨ e.mode = "walk" := by
  rw [directAdds, List.mem_flatMap] at h
  obtain ⟨p, _, h⟩ := h
  rcases List.mem_append.1 h with h | h
  · split at h
    · rcases List.mem_cons.1 h with h | h
      · simp_all
      · rcases List.mem_cons.1 h with h | h
        · simp_all
        · simp at h
    · simp at h
  · split at h
    · rcases List.mem_cons.1 h with h | h
      · simp_all
      · rcases List.mem_cons.1 h with h | h
        · simp_all
        · simp at h
    · simp at h

lemma mem_metroAdds {D : Dist} {a : String} {e : Edge} :
    (a, e) ∈ metroAdds D ↔
      ∃ s1 s2, (s1, s2) ∈ metroData.zip metroData.tail ∧
        ((a = s1.1 ∧ e = ⟨s2.1, "metro", 5/2, D s1.2.1 s1.2.2.1 s2.2.1 s2.2.2.1, 5⟩) ∨
         (a = s2.1 ∧ e = ⟨s1.1, "metro", 5/2, D s1.2.1 s1.2.2.1 s2.2.1 s2.2.2.1, 5⟩)) := by
  rw [metroAdds, List.mem_flatMap]
  constructor
  · rintro ⟨s, hs, h⟩
    rcases List.mem_cons.1 h with h | h
    · exact ⟨s.1, s.2, by simpa using hs, Or.inl (by simpa [Prod.ext_iff] using h)⟩
    · rcases List.mem_cons.1 h with h | h
      · exact ⟨s.1, s.2, by simpa using hs, Or.inr (by simpa [Prod.ext_iff] using h)⟩
      · simp at h
  · rintro ⟨s1, s2, hmem, h | h⟩
    · exact ⟨(s1, s2), hmem, by simp [Prod.ext_iff, h.1, h.2]⟩
    · exact ⟨(s1, s2), hmem, by simp [Prod.ext_iff, h.1, h.2]⟩

/-- C7.  For each pair of consecutive stations of the fixed metro line the
built graph holds a metro edge in each direction with cost 5, time 2.5
and the metric's distance between the two stations' coordinates, and
every metro edge of the graph joins some consecutive station pair (with
exactly those attributes): no metro edge joins a non-consecutive pair. -/
theorem metro_edges_spec (D : Dist) :
    (∀ s1 s2, (s1, s2) ∈ metroData.zip metroData.tail →
      (⟨s2.1, "metro", 5/2, D s1.2.1 s1.2.2.1 s2.2.1 s2.2.2.1, 5⟩ : Edge) ∈
        adj (buildGraph D) s1.1 ∧
      (⟨s1.1, "metro", 5/2, D s1.2.1 s1.2.2.1 s2.2.1 s2.2.2.1, 5⟩ : Edge) ∈
        adj (buildGraph D) s2.1) ∧
    (∀ a e, e ∈ adj (buildGraph D) a → e.mode = "metro" →
      ∃ s1 s2, (s1, s2) ∈ metroData.zip metroData.tail ∧
        e.time = 5/2 ∧ e.cost = 5 ∧ e.distance = D s1.2.1 s1.2.2.1 s2.2.1 s2.2.2.1 ∧
        ((a = s1.1 ∧ e.destination = s2.1) ∨ (a = s2.1 ∧ e.destination = s1.1))) := by
  constructor
  · intro s1 s2 hmem
    constructor
    · rw [mem_adj_buildGraph, graphAdds]
      refine List.mem_append.2 (Or.inl (List.mem_append.2 (Or.inl ?_)))
      exact mem_metroAdds.2 ⟨s1, s2, hmem, Or.inl ⟨rfl, rfl⟩⟩
    · rw [mem_adj_buildGraph, graphAdds]
      refine List.mem_append.2 (Or.inl (List.mem_append.2 (Or.inl ?_)))
      exact mem_metroAdds.2 ⟨s1, s2, hmem, Or.inr ⟨rfl, rfl⟩⟩
  · intro a e hadj hmode
    rw [mem_adj_buildGraph, graphAdds] at hadj
    rcases List.mem_append.1 hadj with h | h
    · rcases List.mem_append.1 h with h | h
      · obtain ⟨s1, s2, hmem, hcase⟩ := mem_metroAdds.1 h
        rcases hcase with ⟨ha, he⟩ | ⟨ha, he⟩
        · exact ⟨s1, s2, hmem, by simp [he], by simp [he], by simp [he],
            Or.inl ⟨ha, by simp [he]⟩⟩
        · exact ⟨s1, s2, hmem, by simp [he], by simp [he], by simp [he],
            Or.inr ⟨ha, by simp [he]⟩⟩
      · rcases connectorAdds_mode h with hm | hm | hm <;> rw [hmode] at hm <;> simp at hm
    · rcases directAdds_mode h with hm | hm <;> rw [hmode] at hm <;> simp at hm

lemma roundHalfEven_abs (q : ℚ) : |(roundHalfEven q : ℚ) - q| ≤ 1/2 := by
  unfold roundHalfEven
  have hfl : (⌊q⌋ : ℚ) ≤ q := Int.floor_le q
  have hfu : q - 1 < ⌊q⌋ := by
    have := Int.lt_floor_add_one q
    linarith
  by_cases h1 : q - ⌊q⌋ < 1/2
  · rw [if_pos h1, abs_le]
    constructor <;> linarith
  · rw [if_neg h1]
    by_cases h2 : 1/2 < q - ⌊q⌋
    · rw [if_pos h2, abs_le]
      push_cast
      constructor <;> linarith
    · rw [if_neg h2]
      have heq : q - ⌊q⌋ = 1/2 := le_antisymm (not_lt.1 h2) (not_lt.1 h1)
      by_cases h3 : (⌊q⌋ % 2 = 0)
      · rw [if_pos h3, abs_le]
        constructor <;> linarith
      · rw [if_neg h3, abs_le]
        push_cast
        constructor <;> linarith

lemma pyround_abs (q : ℚ) (n : ℕ) : |pyround q n - q| ≤ 1 / (2 * 10 ^ n) := by
  have h10 : (0:ℚ) < 10 ^ n := by positivity
  have h := roundHalfEven_abs (q * 10 ^ n)
  have key : pyround q n - q = ((roundHalfEven (q * 10 ^ n) : ℚ) - q * 10 ^ n) / 10 ^ n := by
    unfold pyround
    field_simp
    ring
  rw [key, abs_div, abs_of_pos h10, div_le_div_iff₀ h10 (by positivity)]
  calc |(roundHalfEven (q * 10 ^ n) : ℚ) - q * 10 ^ n| * (2 * 10 ^ n)
      ≤ (1/2) * (2 * 10 ^ n) := mul_le_mul_of_nonneg_right h (by positivity)
    _ = 1 * 10 ^ n := by ring

lemma sum_pyround_abs (l : List ℚ) (n : ℕ) :
    |(l.map (fun q => pyround q n)).sum - l.sum| ≤ l.length * (1 / (2 * 10 ^ n)) := by
  induction l with
  | nil => simp
  | cons q l ih =>
    simp only [List.map_cons, List.sum_cons, List.length_cons]
    have htri : |pyround q n + (l.map (fun q => pyround q n)).sum - (q + l.sum)| ≤
        |pyround q n - q| + |(l.map (fun q => pyround q n)).sum - l.sum| := by
      have : pyround q n + (l.map (fun q => pyround q n)).sum - (q + l.sum) =
          (pyround q n - q) + ((l.map (fun q => pyround q n)).sum - l.sum) := by ring
      rw [this]
      exact abs_add _ _
    have hq := pyround_abs q n
    push_cast
    calc |pyround q n + (l.map (fun q => pyround q n)).sum - (q + l.sum)|
        ≤ |pyround q n - q| + |(l.map (fun q => pyround q n)).sum - l.sum| := htri
      _ ≤ 1 / (2 * 10 ^ n) + l.length * (1 / (2 * 10 ^ n)) := add_le_add hq ih
      _ = (l.length + 1) * (1 / (2 * 10 ^ n)) := by ring

lemma graphOk_of_forall {G : Graph} (h : ∀ p ∈ G, ∀ e ∈ p.2, EdgeOk e) : GraphOk G := by
  intro a e he
  unfold adj at he
  cases hfind : G.find? (fun p => p.1 == a) with
  | none => rw [hfind] at he; exact absurd he (by simp)
  | some p =>
    rw [hfind] at he
    simp only [Option.map_some', Option.getD_some] at he
    exact h p (List.mem_of_find?_eq_some hfind) e he

lemma Inv.mono {G : Graph} {start : String} {v v' : List String} {st : DState}
    (h : Inv G start v st) (hsub : ∀ x ∈ v, x ∈ v') : Inv G start v' st := by
  refine ⟨h.start_label, h.nonneg, ?_⟩
  intro n l p hl hp
  obtain ⟨hv, hrest⟩ := h.pred n l p hl hp
  exact ⟨hsub p hv, hrest⟩

lemma find?_map_keyPres {α β : Type} (u : String × α → String × β)
    (hu : ∀ p, (u p).1 = p.1) (m : List (String × α)) (a : String) :
    (m.map u).find? (fun p => p.1 == a) = (m.find? (fun p => p.1 == a)).map u := by
  induction m with
  | nil => rfl
  | cons q m ih =>
    simp only [List.map_cons, List.find?_cons]
    rw [hu q]
    cases hq : (q.1 == a) <;> simp [hq, ih]

lemma getv_setv {α : Type} (m : List (String × α)) (k : String) (v : α) (a : String) :
    getv (setv m k v) a = (getv m a).map (fun old => if a = k then v else old) := by
  unfold getv setv
  rw [find?_map_keyPres _ (fun p => by by_cases h : (p.1 == k) <;> simp [h])]
  cases hfind : m.find? (fun p => p.1 == a) with
  | none => rfl
  | some p =>
    have hkey : p.1 = a := by simpa using List.find?_some hfind
    by_cases hak : a = k
    · have hb : (p.1 == k) = true := by simp [hkey, hak]
      simp [hb, hak]
      rw [if_pos (hkey.trans hak)]
    · have hb : (p.1 == k) = false := by simp [hkey, hak]
      simp [hb, hak]
      rw [if_neg (fun hEq => hak (hkey.symm.trans hEq))]

lemma getv_setv_ne {α : Type} {m : List (String × α)} {k a : String} (v : α)
    (h : a ≠ k) : getv (setv m k v) a = getv m a := by
  rw [getv_setv]
  cases getv m a <;> simp [h]

lemma codeComposite_nonneg {cw tw vw : ℚ} {lc : NodeLabel} {edge : Edge} {c t : ℚ}
    (hcw : 0 ≤ cw) (htw : 0 ≤ tw) (hvw : 0 ≤ vw) (hdist : 0 ≤ edge.distance) :
    0 ≤ codeComposite cw tw vw lc edge c t := by
  unfold codeComposite
  refine add_nonneg (add_nonneg (mul_nonneg hcw ?_) (mul_nonneg htw ?_))
    (mul_nonneg hvw (add_nonneg (add_nonneg ?_ ?_) ?_))
  · by_cases h : 0 < c + edge.cost
    · rw [if_pos h]; positivity
    · rw [if_neg h]
  · by_cases h : 0 < t + edge.time
    · rw [if_pos h]; positivity
    · rw [if_neg h]
  · by_cases h : 0 < codeTransfers lc edge
    · rw [if_pos h]; positivity
    · rw [if_neg h]
  · by_cases h : codeModeChange lc edge = true
    · rw [if_pos h]; norm_num
    · rw [if_neg h]
  · by_cases h : (edge.mode == "walk" && decide ((1:ℚ)/2 < edge.distance)) = true
    · rw [if_pos h]; positivity
    · rw [if_neg h]

lemma relax_cases (cw tw vw : ℚ) (current : String) (visited : List String)
    (st : DState) (pq : List (ℚ × String)) (edge : Edge) :
    (relax cw tw vw current visited (st, pq) edge).1 = st ∨
    (edge.destination ∉ visited ∧
      ∃ lc ln c t d, getv st current = some lc ∧ getv st edge.destination = some ln ∧
        lc.cost = some c ∧ lc.time = some t ∧ lc.dkm = some d ∧
        (∀ r0, ln.dist = some r0 → codeComposite cw tw vw lc edge c t < r0) ∧
        (relax cw tw vw current visited (st, pq) edge).1 =
          setv st edge.destination
            ⟨some (codeComposite cw tw vw lc edge c t), some (c + edge.cost),
              some (t + edge.time), some (d + edge.distance),
              codeTransfers lc edge, some current, some edge⟩) := by
  unfold relax
  by_cases hvis : edge.destination ∈ visited
  · rw [if_pos hvis]
    exact Or.inl rfl
  · rw [if_neg hvis]
    split
    · rename_i lc ln hlc hln
      split
      · rename_i c t d hc ht hd
        cases hld : ln.dist with
        | none =>
          refine Or.inr ⟨hvis, lc, ln, c, t, d, hlc, hln, hc, ht, hd, ?_, ?_⟩
          · intro r0 hr0
            rw [hld] at hr0
            exact absurd hr0 (by simp)
          · simp only [hld]
            simp
        | some r0 =>
          by_cases hlt : codeComposite cw tw vw lc edge c t < r0
          · refine Or.inr ⟨hvis, lc, ln, c, t, d, hlc, hln, hc, ht, hd, ?_, ?_⟩
            · intro r1 hr1
              rw [hld] at hr1
              cases hr1
              exact hlt
            · simp only [hld, decide_eq_true hlt]
              simp
          · refine Or.inl ?_
            have hb : decide (codeComposite cw tw vw lc edge c t < r0) = false := by
              simpa using hlt
            simp only [hld, hb]
            simp
      · exact Or.inl rfl
    · exact Or.inl rfl

lemma getv_setv_self {α : Type} {m : List (String × α)} {k : String} {w : α} (v : α)
    (h : getv m k = some w) : getv (setv m k v) k = some v := by
  rw [getv_setv, h]
  simp

lemma relax_inv {G : Graph} {start current : String} {visited : List String}
    {st : DState} {pq : List (ℚ × String)} {edge : Edge} {cw tw vw : ℚ}
    (hG : GraphOk G) (hcw : 0 ≤ cw) (htw : 0 ≤ tw) (hvw : 0 ≤ vw)
    (hcur : current ∈ visited) (hedge : edge ∈ adj G current)
    (hInv : Inv G start visited st) :
    Inv G start visited (relax cw tw vw current visited (st, pq) edge).1 := by
  rcases relax_cases cw tw vw current visited st pq edge with heq |
    ⟨hvis, lc, ln, c, t, d, hlc, hln, hc, ht, hd, hbetter, heq⟩
  · rw [heq]; exact hInv
  · rw [heq]
    have hcur_ne : current ≠ edge.destination := fun hEq => hvis (hEq ▸ hcur)
    have hEdgeOk := hG current edge hedge
    obtain ⟨hnn_dist, hnn_cost, hnn_time, hnn_dkm⟩ := hInv.nonneg current lc hlc
    have hc_nonneg : 0 ≤ c := hnn_cost c hc
    have ht_nonneg : 0 ≤ t := hnn_time t ht
    have hd_nonneg : 0 ≤ d := hnn_dkm d hd
    have hcomp_nonneg : 0 ≤ codeComposite cw tw vw lc edge c t :=
      codeComposite_nonneg hcw htw hvw hEdgeOk.2.2
    have hstart_ne : edge.destination ≠ start := by
      intro hEq
      obtain ⟨l0, hl0, hl0dist, _, _, _, _⟩ := hInv.start_label
      rw [hEq, hl0] at hln
      cases hln
      exact absurd (hbetter 0 hl0dist) (not_lt.2 hcomp_nonneg)
    set newLabel : NodeLabel :=
      ⟨some (codeComposite cw tw vw lc edge c t), some (c + edge.cost),
        some (t + edge.time), some (d + edge.distance),
        codeTransfers lc edge, some current, some edge⟩ with hnew
    constructor
    · obtain ⟨l0, hl0, h1, h2, h3, h4, h5⟩ := hInv.start_label
      refine ⟨l0, ?_, h1, h2, h3, h4, h5⟩
      rw [getv_setv_ne _ (Ne.symm hstart_ne)]
      exact hl0
    · intro n l hget
      by_cases hn : n = edge.destination
      · subst hn
        rw [getv_setv_self newLabel hln] at hget
        cases hget
        refine ⟨?_, ?_, ?_, ?_⟩
        · intro q hq
          simp only [hnew] at hq
          cases hq
          exact hcomp_nonneg
        · intro q hq
          simp only [hnew] at hq
          cases hq
          exact add_nonneg hc_nonneg hEdgeOk.1
        · intro q hq
          simp only [hnew] at hq
          cases hq
          exact add_nonneg ht_nonneg hEdgeOk.2.1
        · intro q hq
          simp only [hnew] at hq
          cases hq
          exact add_nonneg hd_nonneg hEdgeOk.2.2
      · rw [getv_setv_ne _ hn] at hget
        exact hInv.nonneg n l hget
    · intro n l p hget hp
      by_cases hn : n = edge.destination
      · subst hn
        rw [getv_setv_self newLabel hln] at hget
        cases hget
        simp only [hnew, Option.some.injEq] at hp
        subst hp
        refine ⟨hcur, edge, lc, c, t, d, rfl, hedge, ?_, hc, ht, hd, rfl, rfl, rfl⟩
        rw [getv_setv_ne _ hcur_ne]
        exact hlc
      · rw [getv_setv_ne _ hn] at hget
        obtain ⟨hpvis, e, lp, cp, tp, dp, he, headj, hgetp, hcp, htp, hdp, h1, h2, h3⟩ :=
          hInv.pred n l p hget hp
        have hp_ne : p ≠ edge.destination := fun hEq => hvis (hEq ▸ hpvis)
        refine ⟨hpvis, e, lp, cp, tp, dp, he, headj, ?_, hcp, htp, hdp, h1, h2, h3⟩
        rw [getv_setv_ne _ hp_ne]
        exact hgetp

lemma foldl_relax_inv {G : Graph} {start current : String} {visited : List String}
    {cw tw vw : ℚ} (hG : GraphOk G) (hcw : 0 ≤ cw) (htw : 0 ≤ tw) (hvw : 0 ≤ vw)
    (hcur : current ∈ visited) :
    ∀ (es : List Edge), (∀ e ∈ es, e ∈ adj G current) →
      ∀ (st : DState) (pq : List (ℚ × String)), Inv G start visited st →
        Inv G start visited ((es.foldl (relax cw tw vw current visited) (st, pq)).1) := by
  intro es
  induction es with
  | nil => intro _ st pq h; exact h
  | cons e es ih =>
    intro hes st pq hInv
    rw [List.foldl_cons]
    have h1 : Inv G start visited (relax cw tw vw current visited (st, pq) e).1 :=
      relax_inv hG hcw htw hvw hcur (hes e (List.mem_cons_self _ _)) hInv
    exact ih (fun e' he' => hes e' (List.mem_cons_of_mem _ he'))
      (relax cw tw vw current visited (st, pq) e).1
      (relax cw tw vw current visited (st, pq) e).2 h1

lemma dijkstraLoop_inv {G : Graph} {start stop : String} {cw tw vw : ℚ}
    (hG : GraphOk G) (hcw : 0 ≤ cw) (htw : 0 ≤ tw) (hvw : 0 ≤ vw) :
    ∀ (fuel : ℕ) (pq : List (ℚ × String)) (visited : List String) (st : DState),
      Inv G start visited st →
      ∃ visited', Inv G start visited' (dijkstraLoop G cw tw vw stop fuel pq visited st) := by
  intro fuel
  induction fuel with
  | zero => intro pq visited st h; exact ⟨visited, h⟩
  | succ fuel ih =>
    intro pq visited st h
    rw [dijkstraLoop]
    cases hpop : popMin pq with
    | none => exact ⟨visited, h⟩
    | some pr =>
      obtain ⟨entry, pq'⟩ := pr
      by_cases hv : entry.2 ∈ visited
      · simp only [hv, if_true]
        exact ih pq' visited st h
      · simp only [hv, if_false]
        by_cases hstop : entry.2 = stop
        · simp only [hstop, if_true]
          exact ⟨visited, h⟩
        · simp only [hstop, if_false]
          have hmono : Inv G start (entry.2 :: visited) st :=
            h.mono (fun x hx => List.mem_cons_of_mem _ hx)
          have hfold : Inv G start (entry.2 :: visited)
              (((adj G entry.2).foldl
                (relax cw tw vw entry.2 (entry.2 :: visited)) (st, pq')).1) :=
            foldl_relax_inv hG hcw htw hvw (List.mem_cons_self _ _) (adj G entry.2)
              (fun _ he => he) st pq' hmono
          exact ih _ _ _ hfold

lemma getv_initState (locs : List Loc) (start n : String) :
    getv (initState locs start) n =
      (locs.find? (fun ℓ => ℓ.name == n)).map (fun ℓ =>
        if ℓ.name == start then (⟨some 0, some 0, some 0, some 0, 0, none, none⟩ : NodeLabel)
        else ⟨none, none, none, none, 0, none, none⟩) := by
  unfold getv initState
  rw [List.find?_map, Option.map_map]
  rfl

lemma initState_inv {G : Graph} {locs : List Loc} {start : String}
    (hstart : hasLoc locs start = true) :
    Inv G start [] (initState locs start) := by
  constructor
  · unfold hasLoc at hstart
    obtain ⟨ℓ0, hfind⟩ := Option.isSome_iff_exists.1 hstart
    have hname : ℓ0.name = start := by simpa using List.find?_some hfind
    refine ⟨⟨some 0, some 0, some 0, some 0, 0, none, none⟩, ?_, rfl, rfl, rfl, rfl, rfl⟩
    rw [getv_initState, hfind]
    simp [hname]
  · intro n l hget
    rw [getv_initState] at hget
    cases hfind : locs.find? (fun ℓ => ℓ.name == n) with
    | none => rw [hfind] at hget; exact absurd hget (by simp)
    | some ℓ =>
      rw [hfind] at hget
      simp only [Option.map_some', Option.some.injEq] at hget
      by_cases hb : (ℓ.name == start)
      · rw [if_pos hb] at hget
        subst hget
        refine ⟨?_, ?_, ?_, ?_⟩
        all_goals intro q hq
        all_goals simp only [Option.some.injEq] at hq
        all_goals subst hq
        all_goals norm_num
      · rw [if_neg hb] at hget
        subst hget
        refine ⟨?_, ?_, ?_, ?_⟩
        all_goals intro q hq
        all_goals exact absurd hq (by simp)
  · intro n l p hget hp
    rw [getv_initState] at hget
    cases hfind : locs.find? (fun ℓ => ℓ.name == n) with
    | none => rw [hfind] at hget; exact absurd hget (by simp)
    | some ℓ =>
      rw [hfind] at hget
      simp only [Option.map_some', Option.some.injEq] at hget
      by_cases hb : (ℓ.name == start)
      · rw [if_pos hb] at hget
        subst hget
        exact absurd hp (by simp)
      · rw [if_neg hb] at hget
        subst hget
        exact absurd hp (by simp)

lemma dijkstra_inv {G : Graph} {locs : List Loc} {start stop : String} {cw tw vw : ℚ}
    (hG : GraphOk G) (hcw : 0 ≤ cw) (htw : 0 ≤ tw) (hvw : 0 ≤ vw)
    (hstart : hasLoc locs start = true) :
    ∃ visited', Inv G start visited' (dijkstra locs G start stop cw tw vw) :=
  dijkstraLoop_inv hG hcw htw hvw _ _ _ _ (initState_inv hstart)

lemma buildBack_chain (st : DState) : ∀ (f : ℕ) (o : Option String),
    List.Chain' (fun a b => (getv st a).bind (·.prev) = some b) (buildBack st f o) := by
  intro f
  induction f with
  | zero => intro o; cases o <;> simp [buildBack]
  | succ f ih =>
    intro o
    cases o with
    | none => simp [buildBack]
    | some cur =>
      rw [buildBack, List.chain'_cons']
      refine ⟨?_, ih _⟩
      intro b hb
      cases hpo : (getv st cur).bind (·.prev) with
      | none => rw [hpo] at hb; simp [buildBack] at hb
      | some x =>
        rw [hpo] at hb
        cases f with
        | zero => simp [buildBack] at hb
        | succ f' =>
          rw [buildBack] at hb
          simp only [List.head?_cons, Option.mem_def, Option.some.injEq] at hb
          subst hb
          rfl

lemma reverse_chain (st : DState) (f : ℕ) (o : Option String) :
    List.Chain' (fun a b => (getv st b).bind (·.prev) = some a) ((buildBack st f o).reverse) := by
  rw [List.chain'_reverse]
  exact buildBack_chain st f o

lemma telescope {G : Graph} {start : String} {visited : List String} {st : DState}
    (hInv : Inv G start visited st) :
    ∀ (l : List String) (a : String) (ca ta da : ℚ),
      List.Chain' (fun x y => (getv st y).bind (·.prev) = some x) (a :: l) →
      labelCost st a = some ca → labelTime st a = some ta → labelDkm st a = some da →
      (∀ n ∈ l, ∃ e0 : Edge, labelEdge st n = some e0) ∧
      ∃ z, (a :: l).getLast? = some z ∧
        labelCost st z = some (ca + (l.map (fun n => eCost st n)).sum) ∧
        labelTime st z = some (ta + (l.map (fun n => eTime st n)).sum) ∧
        labelDkm st z = some (da + (l.map (fun n => eDist st n)).sum) := by
  intro l
  induction l with
  | nil =>
    intro a ca ta da _ hca hta hda
    refine ⟨by simp, a, rfl, ?_, ?_, ?_⟩
    · simpa using hca
    · simpa using hta
    · simpa using hda
  | cons b l ih =>
    intro a ca ta da hchain hca hta hda
    have hrel : (getv st b).bind (·.prev) = some a := (List.chain'_cons.1 hchain).1
    cases hgb : getv st b with
    | none => rw [hgb] at hrel; exact absurd hrel (by simp)
    | some lb =>
      rw [hgb] at hrel
      simp only [Option.some_bind] at hrel
      obtain ⟨_, e0, lp, cp, tp, dp, he0, _, hgetp, hcp, htp, hdp, hcb, htb, hdb⟩ :=
        hInv.pred b lb a hgb hrel
      have hcpa : cp = ca := by
        unfold labelCost at hca
        rw [hgetp] at hca
        simp only [Option.some_bind] at hca
        rw [hcp] at hca
        exact Option.some.injEq .. ▸ (by simpa using hca)
      have htpa : tp = ta := by
        unfold labelTime at hta
        rw [hgetp] at hta
        simp only [Option.some_bind] at hta
        rw [htp] at hta
        simpa using hta
      have hdpa : dp = da := by
        unfold labelDkm at hda
        rw [hgetp] at hda
        simp only [Option.some_bind] at hda
        rw [hdp] at hda
        simpa using hda
      have hedgeb : labelEdge st b = some e0 := by
        unfold labelEdge
        rw [hgb]
        simpa using he0
      have hcostb : labelCost st b = some (ca + e0.cost) := by
        unfold labelCost
        rw [hgb]
        simp only [Option.some_bind]
        rw [hcb, hcpa]
      have htimeb : labelTime st b = some (ta + e0.time) := by
        unfold labelTime
        rw [hgb]
        simp only [Option.some_bind]
        rw [htb, htpa]
      have hdkmb : labelDkm st b = some (da + e0.distance) := by
        unfold labelDkm
        rw [hgb]
        simp only [Option.some_bind]
        rw [hdb, hdpa]
      have hchain' : List.Chain' (fun x y => (getv st y).bind (·.prev) = some x) (b :: l) :=
        (List.chain'_cons.1 hchain).2
      obtain ⟨hedges, z, hz, hzc, hzt, hzd⟩ := ih b (ca + e0.cost) (ta + e0.time)
        (da + e0.distance) hchain' hcostb htimeb hdkmb
      have heC : eCost st b = e0.cost := by simp [eCost, hedgeb]
      have heT : eTime st b = e0.time := by simp [eTime, hedgeb]
      have heD : eDist st b = e0.distance := by simp [eDist, hedgeb]
      refine ⟨?_, z, ?_, ?_, ?_, ?_⟩
      · intro n hn
        rcases List.mem_cons.1 hn with rfl | hn
        · exact ⟨e0, hedgeb⟩
        · exact hedges n hn
      · rw [List.getLast?_cons_cons]
        exact hz
      · rw [hzc]
        congr 1
        simp only [List.map_cons, List.sum_cons, heC]
        ring
      · rw [hzt]
        congr 1
        simp only [List.map_cons, List.sum_cons, heT]
        ring
      · rw [hzd]
        congr 1
        simp only [List.map_cons, List.sum_cons, heD]
        ring

lemma sum_round_vs_round_sum (xs : List ℚ) (n : ℕ) :
    |(xs.map (fun q => pyround q n)).sum - pyround xs.sum n| ≤
      (xs.length + 1) * (1 / (2 * 10 ^ n)) := by
  have h1 := sum_pyround_abs xs n
  have h2 := pyround_abs xs.sum n
  have h2' : |xs.sum - pyround xs.sum n| ≤ 1 / (2 * 10 ^ n) := by
    rw [abs_sub_comm]
    exact h2
  calc |(xs.map (fun q => pyround q n)).sum - pyround xs.sum n|
      = |((xs.map (fun q => pyround q n)).sum - xs.sum) + (xs.sum - pyround xs.sum n)| := by
        ring_nf
    _ ≤ |(xs.map (fun q => pyround q n)).sum - xs.sum| + |xs.sum - pyround xs.sum n| :=
        abs_add _ _
    _ ≤ xs.length * (1 / (2 * 10 ^ n)) + 1 / (2 * 10 ^ n) := add_le_add h1 h2'
    _ = (xs.length + 1) * (1 / (2 * 10 ^ n)) := by ring

lemma laterStep_fields {locs : List Loc} {st : DState} {n : String} {e0 : Edge}
    (h : labelEdge st n = some e0) :
    (laterStep locs st n).segment_cost = pyround (eCost st n) 2 ∧
    (laterStep locs st n).segment_time = pyround (eTime st n) 1 ∧
    (laterStep locs st n).segment_distance = pyround (eDist st n) 2 := by
  unfold labelEdge at h
  unfold laterStep
  rw [h]
  simp [eCost, eTime, eDist, labelEdge, h]

lemma stratList_nonneg : ∀ w ∈ stratList, 0 ≤ w.2.1 ∧ 0 ≤ w.2.2.1 ∧ 0 ≤ w.2.2.2 := by
  intro w hw
  simp only [stratList, List.mem_cons, List.not_mem_nil, or_false] at hw
  rcases hw with rfl | rfl | rfl | rfl <;> refine ⟨?_, ?_, ?_⟩ <;> norm_num

/-- C3 (amended).  For every route of a successful result, the sum of the
rounded per-step segment values differs from the rounded total by at most
half a final-digit unit per path step: 0.005 * steps for cost and
distance (rounded to 2 decimals) and 0.05 * steps for time (rounded to 1
decimal), for any graph whose edges carry nonnegative attributes. -/
theorem route_totals_rounding_bound (locs : List Loc) (G : Graph) (s e : String)
    (rs : List Route) (r : Route) (hG : GraphOk G)
    (h : findOptimizedRoutes locs G s e = .routes rs) (hr : r ∈ rs) :
    |(r.path.map (·.segment_cost)).sum - r.total_cost| ≤ r.path.length * (1/200) ∧
    |(r.path.map (·.segment_time)).sum - r.total_time| ≤ r.path.length * (1/20) ∧
    |(r.path.map (·.segment_distance)).sum - r.total_distance| ≤ r.path.length * (1/200) := by
  obtain ⟨hs, he, hne, _, _⟩ := find_routes_inv h
  obtain ⟨w, hw, hrun⟩ := mem_allRoutes.1 (mem_routes_mem_allRoutes h hr)
  obtain ⟨hcw, htw, hvw⟩ := stratList_nonneg w hw
  set st := dijkstra locs G s e w.2.1 w.2.2.1 w.2.2.2 with hst
  obtain ⟨hstrat, hpath, hpne, _, htc, htt, htd⟩ := runStrategy_eq_some hrun
  have hdij : ∃ visited', Inv G s visited' (dijkstra locs G s e w.2.1 w.2.2.1 w.2.2.2) :=
    dijkstra_inv hG hcw htw hvw hs
  obtain ⟨visited', hInv⟩ := hdij
  rw [← hst] at hInv
  have hne' : reconstructPath locs st s e ≠ [] := hpath ▸ hpne
  obtain ⟨rest, hrev, hsteps⟩ := reconstructPath_shape hne'
  have hchain : List.Chain' (fun x y => (getv st y).bind (·.prev) = some x) (s :: rest) := by
    rw [← hrev]
    exact reverse_chain st (st.length + 1) (some e)
  obtain ⟨l0, hl0, hl0d, hl0c, hl0t, hl0k, _⟩ := hInv.start_label
  have hca : labelCost st s = some 0 := by unfold labelCost; rw [hl0]; simpa using hl0c
  have hta : labelTime st s = some 0 := by unfold labelTime; rw [hl0]; simpa using hl0t
  have hda : labelDkm st s = some 0 := by unfold labelDkm; rw [hl0]; simpa using hl0k
  obtain ⟨hedges, z, hz, hzc, hzt, hzd⟩ := telescope hInv rest s 0 0 0 hchain hca hta hda
  have hze : z = e := by
    have hbb : buildBack st (st.length + 1) (some e) =
        e :: buildBack st st.length ((getv st e).bind (·.prev)) := rfl
    have hlast : (s :: rest).getLast? = some e := by
      rw [← hrev, hbb, List.getLast?_reverse]
      rfl
    rw [hz] at hlast
    simpa using hlast
  subst hze
  have hptot : r.path.length = rest.length + 1 := by
    rw [hpath, hsteps]
    simp
  -- total label values at the destination
  have hcost_e : ((getv st z).bind (·.cost)).getD 0 = (rest.map (fun n => eCost st n)).sum := by
    have := hzc
    unfold labelCost at this
    rw [this]
    simp
  have htime_e : ((getv st z).bind (·.time)).getD 0 = (rest.map (fun n => eTime st n)).sum := by
    have := hzt
    unfold labelTime at this
    rw [this]
    simp
  have hdkm_e : ((getv st z).bind (·.dkm)).getD 0 = (rest.map (fun n => eDist st n)).sum := by
    have := hzd
    unfold labelDkm at this
    rw [this]
    simp
  -- the displayed segment sums
  have hmapc : (r.path.map (·.segment_cost)).sum =
      ((rest.map (fun n => eCost st n)).map (fun q => pyround q 2)).sum := by
    rw [hpath, hsteps]
    simp only [List.map_cons, List.sum_cons, List.map_map]
    rw [show (startStep locs s).segment_cost = 0 from rfl, zero_add]
    congr 1
    refine List.map_congr_left ?_
    intro n hn
    obtain ⟨e0, he0⟩ := hedges n hn
    exact (laterStep_fields he0).1
  have hmapt : (r.path.map (·.segment_time)).sum =
      ((rest.map (fun n => eTime st n)).map (fun q => pyround q 1)).sum := by
    rw [hpath, hsteps]
    simp only [List.map_cons, List.sum_cons, List.map_map]
    rw [show (startStep locs s).segment_time = 0 from rfl, zero_add]
    congr 1
    refine List.map_congr_left ?_
    intro n hn
    obtain ⟨e0, he0⟩ := hedges n hn
    exact (laterStep_fields he0).2.1
  have hmapd : (r.path.map (·.segment_distance)).sum =
      ((rest.map (fun n => eDist st n)).map (fun q => pyround q 2)).sum := by
    rw [hpath, hsteps]
    simp only [List.map_cons, List.sum_cons, List.map_map]
    rw [show (startStep locs s).segment_distance = 0 from rfl, zero_add]
    congr 1
    refine List.map_congr_left ?_
    intro n hn
    obtain ⟨e0, he0⟩ := hedges n hn
    exact (laterStep_fields he0).2.2
  refine ⟨?_, ?_, ?_⟩
  · rw [hmapc, htc, hcost_e, hptot]
    have := sum_round_vs_round_sum (rest.map (fun n => eCost st n)) 2
    simp only [List.length_map] at this
    calc |(((rest.map (fun n => eCost st n)).map (fun q => pyround q 2)).sum -
          pyround (rest.map (fun n => eCost st n)).sum 2)|
        ≤ (rest.length + 1) * (1 / (2 * 10 ^ 2)) := this
      _ = (rest.length + 1) * (1/200) := by norm_num
      _ = ((rest.length + 1 : ℕ) : ℚ) * (1/200) := by push_cast; ring
  · rw [hmapt, htt, htime_e, hptot]
    have := sum_round_vs_round_sum (rest.map (fun n => eTime st n)) 1
    simp only [List.length_map] at this
    calc |(((rest.map (fun n => eTime st n)).map (fun q => pyround q 1)).sum -
          pyround (rest.map (fun n => eTime st n)).sum 1)|
        ≤ (rest.length + 1) * (1 / (2 * 10 ^ 1)) := this
      _ = (rest.length + 1) * (1/20) := by norm_num
      _ = ((rest.length + 1 : ℕ) : ℚ) * (1/20) := by push_cast; ring
  · rw [hmapd, htd, hdkm_e, hptot]
    have := sum_round_vs_round_sum (rest.map (fun n => eDist st n)) 2
    simp only [List.length_map] at this
    calc |(((rest.map (fun n => eDist st n)).map (fun q => pyround q 2)).sum -
          pyround (rest.map (fun n => eDist st n)).sum 2)|
        ≤ (rest.length + 1) * (1 / (2 * 10 ^ 2)) := this
      _ = (rest.length + 1) * (1/200) := by norm_num
      _ = ((rest.length + 1 : ℕ) : ℚ) * (1/200) := by push_cast; ring

lemma tiny_eval : findOptimizedRoutes tinyLocs tinyGraph "A" "B" = .routes [tinyRoute] := by
  decide!

theorem findRoutes_error_characterization_witness :
    findOptimizedRoutes tinyLocs tinyGraph "A" "A" = .err .identicalEndpoints :=
  (findRoutes_error_characterization tinyLocs tinyGraph "A" "A").2.2.1
    (by decide!) (by decide!) rfl

theorem validation_order_spec_witness :
    findOptimizedRoutes tinyLocs tinyGraph "Nowhere" "B" = .err (.unknownStart "Nowhere") :=
  (validation_order_spec tinyLocs tinyGraph "Nowhere" "B").1 (by decide!)

theorem route_endpoints_spec_witness :
    (∃ h0, tinyRoute.path.head? = some h0 ∧ h0.location = "A" ∧ h0.mode = "start" ∧
      h0.segment_cost = 0 ∧ h0.segment_time = 0 ∧ h0.segment_distance = 0) ∧
    (∃ hl, tinyRoute.path.getLast? = some hl ∧ hl.location = "B") :=
  route_endpoints_spec tinyLocs tinyGraph "A" "B" [tinyRoute] tinyRoute tiny_eval
    (List.mem_singleton.2 rfl)

theorem routes_dedup_spec_witness :
    ([tinyRoute] : List Route).Pairwise (fun a b => routeKey a ≠ routeKey b) :=
  (routes_dedup_spec tinyLocs tinyGraph "A" "B" [tinyRoute] tiny_eval).1

theorem routes_sorted_spec_witness :
    ([tinyRoute] : List Route).Chain' (fun a b => rankKey a ≤ rankKey b) :=
  routes_sorted_spec tinyLocs tinyGraph "A" "B" [tinyRoute] tiny_eval

theorem result_count_strategies_spec_witness :
    1 ≤ ([tinyRoute] : List Route).length ∧ ([tinyRoute] : List Route).length ≤ 4 :=
  ⟨(result_count_strategies_spec tinyLocs tinyGraph "A" "B" [tinyRoute] tiny_eval).1,
   (result_count_strategies_spec tinyLocs tinyGraph "A" "B" [tinyRoute] tiny_eval).2.1⟩

theorem route_totals_rounding_bound_witness :
    |(tinyRoute.path.map (·.segment_cost)).sum - tinyRoute.total_cost| ≤
      tinyRoute.path.length * (1/200) ∧
    |(tinyRoute.path.map (·.segment_time)).sum - tinyRoute.total_time| ≤
      tinyRoute.path.length * (1/20) ∧
    |(tinyRoute.path.map (·.segment_distance)).sum - tinyRoute.total_distance| ≤
      tinyRoute.path.length * (1/200) :=
  route_totals_rounding_bound tinyLocs tinyGraph "A" "B" [tinyRoute] tinyRoute
    (graphOk_of_forall (by decide!)) tiny_eval (List.mem_singleton.2 rfl)

theorem relax_composite_spec_witness :
    relax 1 1 1 "A" ["A"] (wState, []) wEdge =
      (setv wState "B"
        ⟨some (specComposite 1 1 1 ⟨some 0, some 0, some 0, some 0, 0, none, none⟩ wEdge 0 0),
          some (0 + wEdge.cost), some (0 + wEdge.time), some (0 + wEdge.distance),
          specTransfers ⟨some 0, some 0, some 0, some 0, 0, none, none⟩ wEdge, some "A",
          some wEdge⟩,
        (specComposite 1 1 1 ⟨some 0, some 0, some 0, some 0, 0, none, none⟩ wEdge 0 0,
          "B") :: []) :=
  (relax_composite_spec 1 1 1 "A" ["A"] wState [] wEdge
    ⟨some 0, some 0, some 0, some 0, 0, none, none⟩
    ⟨none, none, none, none, 0, none, none⟩ 0 0 0
    (by decide) rfl rfl rfl rfl rfl (by decide!) (by decide!)).1 (Or.inl rfl)

theorem metro_edges_spec_witness :
    (⟨"Pulinchodu Metro", "metro", 5/2, 1, 5⟩ : Edge) ∈
      adj (buildGraph (fun _ _ _ _ => 1)) "Aluva Metro" :=
  ((metro_edges_spec (fun _ _ _ _ => 1)).1
    ("Aluva Metro", 10.1082, 76.3520, "Zone 3")
    ("Pulinchodu Metro", 10.1012, 76.3445, "Zone 3") (by decide!)).1
/-! ### Concrete evaluations of the full pipeline -/

lemma eval_aluva_pulinchodu :
    findOptimizedRoutes locations theGraph "Aluva Metro" "Pulinchodu Metro" =
      .routes [apRoute] := by
  decide!

lemma eval_thripunithura_kaloor :
    findOptimizedRoutes locations theGraph "Thripunithura Metro" "Kaloor Metro" =
      .routes [tkRoute] := by
  decide!

/-- C8 counterexample.  The query from Aluva Metro to Pulinchodu Metro
yields exactly one route — the direct 2-step metro hop with cost 5 and
time 2.5 — but its total distance is 1.13 km, so no route of the result
satisfies the claimed 0.9–1.0 km distance range. -/
theorem aluva_pulinchodu_counterexample :
    findOptimizedRoutes locations theGraph "Aluva Metro" "Pulinchodu Metro" =
      .routes [apRoute] ∧
    ¬ ∃ r ∈ [apRoute], r.path.length = 2 ∧ r.path.map (·.mode) = ["start", "metro"] ∧
        r.total_cost = 5 ∧ r.total_time = 5/2 ∧
        9/10 ≤ r.total_distance ∧ r.total_distance ≤ 1 :=
  ⟨eval_aluva_pulinchodu, by decide!⟩

/-- C8 (amended).  The query from Aluva Metro to Pulinchodu Metro yields a
2-step route whose second step uses mode metro, with total cost 5, total
time 2.5, and total distance equal to the (rounded) tabulated haversine
distance between the two stations' fixed coordinates — approximately
1.13 km, not 0.9–1.0 km. -/
theorem aluva_pulinchodu_route :
    findOptimizedRoutes locations theGraph "Aluva Metro" "Pulinchodu Metro" =
      .routes [apRoute] ∧
    apRoute.path.length = 2 ∧ apRoute.path.map (·.mode) = ["start", "metro"] ∧
    apRoute.total_cost = 5 ∧ apRoute.total_time = 5/2 ∧
    apRoute.total_distance = pyround (distq 10.1082 76.3520 10.1012 76.3445) 2 ∧
    11/10 ≤ apRoute.total_distance ∧ apRoute.total_distance ≤ 6/5 :=
  ⟨eval_aluva_pulinchodu, rfl, by decide!, rfl, rfl, by decide!, by decide!, by decide!⟩

/-- C3 counterexample.  The query from Thripunithura Metro to Kaloor Metro
returns one ten-segment metro route; each displayed segment distance is
1.13 km (summing to 11.30) while the displayed total distance is 11.32, a
deviation of 0.02 km, beyond the claimed 0.01 tolerance. -/
theorem route_totals_tolerance_counterexample :
    findOptimizedRoutes locations theGraph "Thripunithura Metro" "Kaloor Metro" =
      .routes [tkRoute] ∧
    ¬ |(tkRoute.path.map (·.segment_distance)).sum - tkRoute.total_distance| ≤ 1/100 :=
  ⟨eval_thripunithura_kaloor, by decide!⟩

end Kochi
